import Mathlib

/-!
Verification development for the ProceduralBases repository
(`fpsz_base_generator_v4.py` / `fpsz_base_generator_v7.py`).

The Python sources are shallowly embedded:
* floating point numbers are embedded as exact rationals (`ℚ`) wherever the
  source only performs field arithmetic and comparisons, and as real numbers
  (`ℝ`) where the source calls `math.sqrt` / `math.tan`;
* Python lists that are mutated in place are threaded explicitly;
* the bmesh vertex/face accumulator is a pair of lists (`Mesh`), a face being
  the list of indices of its vertices in creation order.
-/

namespace V4

/-- Room kind tags, from `class RoomType(Enum)` of `fpsz_base_generator_v4.py`. -/
inductive RoomType
  | MAIN_HALL
  | CORRIDOR
  | SIDE_CHAMBER
  | EQUIPMENT_ROOM
  | STAIRWELL
  | BALCONY
deriving DecidableEq, Repr

/-- Interior room definition, from `@dataclass class Room` (id, room_type,
x, y, z, width, depth, height, level, connections). -/
structure Room where
  id : Nat
  room_type : RoomType
  x : ℚ
  y : ℚ
  z : ℚ
  width : ℚ
  depth : ℚ
  height : ℚ
  level : Nat
  connections : List Nat
deriving DecidableEq, Repr

/-- Base styles of v4 (`class BaseStyle(Enum)`). -/
inductive BaseStyle
  | PYRAMID
  | STEPPED_PYRAMID
  | TOWER_ON_BASE
deriving DecidableEq, Repr

/-- Generation configuration, from `@dataclass class Config` of v4, with the
same defaults.  `main_hall_size`, `side_chamber_size` and
`equipment_room_size` are pairs in the source; they are split into explicit
width/depth fields here. -/
structure Config where
  base_width : ℚ := 70
  base_depth : ℚ := 70
  base_height : ℚ := 55
  wall_taper : ℚ := 0.25
  wall_thickness : ℚ := 3
  floor_thickness : ℚ := 1
  interior_wall_thickness : ℚ := 1.5
  num_levels : Nat := 4
  level_height : ℚ := 12
  rooms_per_level : Nat := 4
  main_hall_w : ℚ := 24
  main_hall_d : ℚ := 24
  corridor_width : ℚ := 8
  corridor_length : ℚ := 16
  side_chamber_w : ℚ := 14
  side_chamber_d : ℚ := 12
  equipment_room_w : ℚ := 8
  equipment_room_d : ℚ := 8
  doorway_width : ℚ := 6
  doorway_height : ℚ := 8
  ramp_width : ℚ := 6
  ramp_angle : ℚ := 28
  num_entrances : Nat := 2
  entrance_width : ℚ := 10
  entrance_height : ℚ := 10
  style : BaseStyle := BaseStyle.PYRAMID
  seed : Int := 42

/-- State threaded through the corner-room loop at the end of
`_generate_ground_floor`: rooms created so far by the loop, the connection
lists of the east and west side chambers (mutated by the loop), and the
room-id counter. -/
structure GroundCornerState where
  extra : List Room
  ce : List Nat
  cw : List Nat
  k : Nat
deriving Repr

/-- One iteration of the corner-room loop of `_generate_ground_floor`
(`for cx, cy in [...]`): a corner equipment room is created when it fits the
available envelope, and is connected to the nearest side chamber. -/
def ground_corner_step (cfg : Config) (z availW availD : ℚ) (level : Nat)
    (chEId chWId : Nat) (st : GroundCornerState) (p : ℚ × ℚ) : GroundCornerState :=
  let cx := p.1
  let cy := p.2
  if |cx| < availW / 2 - 4 ∧ |cy| < availD / 2 - 4 then
    if cx > 0 then
      let corner_room : Room :=
        { id := st.k, room_type := RoomType.EQUIPMENT_ROOM, x := cx, y := cy, z := z,
          width := cfg.equipment_room_w * 0.9, depth := cfg.equipment_room_d * 0.9,
          height := cfg.level_height - 2, level := level, connections := [chEId] }
      { extra := st.extra ++ [corner_room], ce := st.ce ++ [st.k], cw := st.cw, k := st.k + 1 }
    else
      let corner_room : Room :=
        { id := st.k, room_type := RoomType.EQUIPMENT_ROOM, x := cx, y := cy, z := z,
          width := cfg.equipment_room_w * 0.9, depth := cfg.equipment_room_d * 0.9,
          height := cfg.level_height - 2, level := level, connections := [chWId] }
      { extra := st.extra ++ [corner_room], ce := st.ce, cw := st.cw ++ [st.k], k := st.k + 1 }
  else st

/-- `InteriorLayout._generate_ground_floor`.  Rooms are listed in creation
order; `n` is the value of the room-id counter on entry.  The connection
lists record every `connections.append` the source performs on the ground
floor: main hall ↔ north/south corridors and east/west chambers, corridors ↔
their equipment rooms, chambers ↔ the corner rooms created by the loop. -/
def generate_ground_floor (cfg : Config) (z availW availD : ℚ) (level : Nat)
    (n : Nat) : List Room :=
  let hall_w := cfg.main_hall_w
  let hall_d := cfg.main_hall_d
  let corner_offset := hall_w / 2 + 8
  let corners : List (ℚ × ℚ) :=
    [(corner_offset, corner_offset), (corner_offset, -corner_offset),
     (-corner_offset, corner_offset), (-corner_offset, -corner_offset)]
  let st := corners.foldl (ground_corner_step cfg z availW availD level (n + 3) (n + 4))
    { extra := [], ce := [n], cw := [n], k := n + 7 }
  [{ id := n, room_type := RoomType.MAIN_HALL, x := 0, y := 0, z := z,
     width := hall_w, depth := hall_d, height := cfg.level_height - 1, level := level,
     connections := [n + 1, n + 2, n + 3, n + 4] },
   { id := n + 1, room_type := RoomType.CORRIDOR,
     x := 0, y := hall_d / 2 + cfg.corridor_length / 2, z := z,
     width := cfg.corridor_width, depth := cfg.corridor_length,
     height := cfg.level_height - 1, level := level, connections := [n, n + 5] },
   { id := n + 2, room_type := RoomType.CORRIDOR,
     x := 0, y := -(hall_d / 2 + cfg.corridor_length / 2), z := z,
     width := cfg.corridor_width, depth := cfg.corridor_length,
     height := cfg.level_height - 1, level := level, connections := [n, n + 6] },
   { id := n + 3, room_type := RoomType.SIDE_CHAMBER,
     x := hall_w / 2 + cfg.side_chamber_w / 2 + 2, y := 0, z := z,
     width := cfg.side_chamber_w, depth := cfg.side_chamber_d,
     height := cfg.level_height - 1, level := level, connections := st.ce },
   { id := n + 4, room_type := RoomType.SIDE_CHAMBER,
     x := -(hall_w / 2 + cfg.side_chamber_w / 2 + 2), y := 0, z := z,
     width := cfg.side_chamber_w, depth := cfg.side_chamber_d,
     height := cfg.level_height - 1, level := level, connections := st.cw },
   { id := n + 5, room_type := RoomType.EQUIPMENT_ROOM,
     x := 0, y := hall_d / 2 + cfg.corridor_length + cfg.equipment_room_d / 2 + 1, z := z,
     width := cfg.equipment_room_w, depth := cfg.equipment_room_d,
     height := cfg.level_height - 2, level := level, connections := [n + 1] },
   { id := n + 6, room_type := RoomType.EQUIPMENT_ROOM,
     x := 0, y := -(hall_d / 2 + cfg.corridor_length + cfg.equipment_room_d / 2 + 1), z := z,
     width := cfg.equipment_room_w, depth := cfg.equipment_room_d,
     height := cfg.level_height - 2, level := level, connections := [n + 2] }] ++ st.extra

/-- `InteriorLayout._generate_middle_floor`: a ring of four corridor segments
around the atrium, mutually connected, plus four optional side chambers.
The chamber `if` guard is evaluated once in the source and controls all four
chambers and the corresponding corridor connection appends. -/
def generate_middle_floor (cfg : Config) (z availW availD : ℚ) (level : Nat)
    (n : Nat) : List Room :=
  let atrium_size := min 16 (availW * 0.3)
  let ring_width : ℚ := 7
  let ring_inner := atrium_size / 2 + 1
  let ring_outer := ring_inner + ring_width
  let chamber_offset := ring_outer + cfg.side_chamber_w / 2 + 2
  if chamber_offset < availW / 2 - 3 then
    [{ id := n, room_type := RoomType.CORRIDOR,
       x := 0, y := ring_inner + ring_width / 2, z := z,
       width := ring_outer * 1.8, depth := ring_width,
       height := cfg.level_height - 1, level := level,
       connections := [n + 2, n + 3, n + 4, n + 5] },
     { id := n + 1, room_type := RoomType.CORRIDOR,
       x := 0, y := -(ring_inner + ring_width / 2), z := z,
       width := ring_outer * 1.8, depth := ring_width,
       height := cfg.level_height - 1, level := level,
       connections := [n + 2, n + 3, n + 6, n + 7] },
     { id := n + 2, room_type := RoomType.CORRIDOR,
       x := ring_inner + ring_width / 2, y := 0, z := z,
       width := ring_width, depth := ring_outer * 1.8,
       height := cfg.level_height - 1, level := level,
       connections := [n, n + 1, n + 4, n + 6] },
     { id := n + 3, room_type := RoomType.CORRIDOR,
       x := -(ring_inner + ring_width / 2), y := 0, z := z,
       width := ring_width, depth := ring_outer * 1.8,
       height := cfg.level_height - 1, level := level,
       connections := [n, n + 1, n + 5, n + 7] },
     { id := n + 4, room_type := RoomType.SIDE_CHAMBER,
       x := chamber_offset * 0.7, y := chamber_offset * 0.7, z := z,
       width := cfg.side_chamber_w * 0.85, depth := cfg.side_chamber_d * 0.85,
       height := cfg.level_height - 1, level := level, connections := [n, n + 2] },
     { id := n + 5, room_type := RoomType.SIDE_CHAMBER,
       x := -(chamber_offset * 0.7), y := chamber_offset * 0.7, z := z,
       width := cfg.side_chamber_w * 0.85, depth := cfg.side_chamber_d * 0.85,
       height := cfg.level_height - 1, level := level, connections := [n, n + 3] },
     { id := n + 6, room_type := RoomType.SIDE_CHAMBER,
       x := chamber_offset * 0.7, y := -(chamber_offset * 0.7), z := z,
       width := cfg.side_chamber_w * 0.85, depth := cfg.side_chamber_d * 0.85,
       height := cfg.level_height - 1, level := level, connections := [n + 1, n + 2] },
     { id := n + 7, room_type := RoomType.SIDE_CHAMBER,
       x := -(chamber_offset * 0.7), y := -(chamber_offset * 0.7), z := z,
       width := cfg.side_chamber_w * 0.85, depth := cfg.side_chamber_d * 0.85,
       height := cfg.level_height - 1, level := level, connections := [n + 1, n + 3] }]
  else
    [{ id := n, room_type := RoomType.CORRIDOR,
       x := 0, y := ring_inner + ring_width / 2, z := z,
       width := ring_outer * 1.8, depth := ring_width,
       height := cfg.level_height - 1, level := level, connections := [n + 2, n + 3] },
     { id := n + 1, room_type := RoomType.CORRIDOR,
       x := 0, y := -(ring_inner + ring_width / 2), z := z,
       width := ring_outer * 1.8, depth := ring_width,
       height := cfg.level_height - 1, level := level, connections := [n + 2, n + 3] },
     { id := n + 2, room_type := RoomType.CORRIDOR,
       x := ring_inner + ring_width / 2, y := 0, z := z,
       width := ring_width, depth := ring_outer * 1.8,
       height := cfg.level_height - 1, level := level, connections := [n, n + 1] },
     { id := n + 3, room_type := RoomType.CORRIDOR,
       x := -(ring_inner + ring_width / 2), y := 0, z := z,
       width := ring_width, depth := ring_outer * 1.8,
       height := cfg.level_height - 1, level := level, connections := [n, n + 1] }]

/-- `InteriorLayout._generate_top_floor`: a central command room, up to two
balconies (both guarded by the same condition, which the source tests twice)
and up to two side alcoves.  The command room's connection list accumulates
the ids of whichever of those were created, in creation order. -/
def generate_top_floor (cfg : Config) (z availW availD : ℚ) (level : Nat)
    (n : Nat) : List Room :=
  let cmd_size := min 18 (availW * 0.5)
  let balcony_width : ℚ := 5
  let balcony_length : ℚ := 12
  let alcove_offset := cmd_size / 2 + 6
  let balconies : List Room :=
    if cmd_size / 2 + balcony_length < availD / 2 - 2 then
      [{ id := n + 1, room_type := RoomType.BALCONY,
         x := 0, y := cmd_size / 2 + balcony_length / 2, z := z,
         width := balcony_width * 1.5, depth := balcony_length,
         height := cfg.level_height, level := level, connections := [n] },
       { id := n + 2, room_type := RoomType.BALCONY,
         x := 0, y := -(cmd_size / 2 + balcony_length / 2), z := z,
         width := balcony_width * 1.5, depth := balcony_length,
         height := cfg.level_height, level := level, connections := [n] }]
    else []
  let a0 := n + 1 + balconies.length
  let alcoves : List Room :=
    if alcove_offset < availW / 2 - 4 then
      [{ id := a0, room_type := RoomType.EQUIPMENT_ROOM,
         x := alcove_offset, y := 0, z := z,
         width := 8, depth := 10, height := cfg.level_height - 1,
         level := level, connections := [n] },
       { id := a0 + 1, room_type := RoomType.EQUIPMENT_ROOM,
         x := -alcove_offset, y := 0, z := z,
         width := 8, depth := 10, height := cfg.level_height - 1,
         level := level, connections := [n] }]
    else []
  { id := n, room_type := RoomType.MAIN_HALL, x := 0, y := 0, z := z,
    width := cmd_size, depth := cmd_size, height := cfg.level_height,
    level := level,
    connections := balconies.map Room.id ++ alcoves.map Room.id } ::
  (balconies ++ alcoves)

/-- Taper of the exterior envelope at height `z`, as computed in
`_generate_level`: `self.cfg.base_height * self.cfg.wall_taper * height_ratio`
with `height_ratio = z / self.cfg.base_height`. -/
def level_taper (cfg : Config) (z : ℚ) : ℚ :=
  cfg.base_height * cfg.wall_taper * (z / cfg.base_height)

/-- Available interior width at height `z`
(`available_width = base_width - wall_thickness * 2 - taper * 2`). -/
def available_width (cfg : Config) (z : ℚ) : ℚ :=
  cfg.base_width - cfg.wall_thickness * 2 - level_taper cfg z * 2

/-- Available interior depth at height `z`. -/
def available_depth (cfg : Config) (z : ℚ) : ℚ :=
  cfg.base_depth - cfg.wall_thickness * 2 - level_taper cfg z * 2

/-- The rooms `InteriorLayout._generate_level` creates for one level: the
floor generator is picked by the level index, with `n` the room-id counter
on entry. -/
def level_block (cfg : Config) (level : Nat) (n : Nat) : List Room :=
  let z := (level : ℚ) * cfg.level_height + cfg.floor_thickness
  let availW := available_width cfg z
  let availD := available_depth cfg z
  if level = 0 then generate_ground_floor cfg z availW availD level n
  else if level = cfg.num_levels - 1 then generate_top_floor cfg z availW availD level n
  else generate_middle_floor cfg z availW availD level n

/-- `InteriorLayout._generate_level` as a state transformer: appends the
level's rooms and advances the room-id counter by the number of rooms
created. -/
def generate_level (cfg : Config) (level : Nat) (st : List Room × Nat) :
    List Room × Nat :=
  let block := level_block cfg level st.2
  (st.1 ++ block, st.2 + block.length)

/-- One ordered pair (outer index `i`, inner index `j`) of the nested loop of
`_create_vertical_connections`: when the `j` room is one level above the `i`
room and their horizontal centers are within 8 units in both axes, each
room's id is appended to the other's connection list unless already there. -/
def vertical_pair (rooms : List Room) (i j : Nat) : List Room :=
  match rooms[i]?, rooms[j]? with
  | some room, some other =>
    if other.level = room.level + 1 ∧ |room.x - other.x| < 8 ∧ |room.y - other.y| < 8 then
      let room2 := if other.id ∈ room.connections then room
        else { room with connections := room.connections ++ [other.id] }
      let other2 := if room.id ∈ other.connections then other
        else { other with connections := other.connections ++ [room.id] }
      (rooms.set i room2).set j other2
    else rooms
  | _, _ => rooms

/-- `InteriorLayout._create_vertical_connections`: the nested
`for room in self.rooms: for other in self.rooms:` loop, flattened into the
lexicographic list of index pairs. -/
def create_vertical_connections (rooms : List Room) : List Room :=
  ((List.range rooms.length).flatMap fun i =>
    (List.range rooms.length).map fun j => (i, j)).foldl
    (fun rs p => vertical_pair rs p.1 p.2) rooms

/-- `InteriorLayout.generate_layout`: all levels in order, then the
vertical-connection pass.  The generator's `random.Random(cfg.seed)` stream
is never consumed by any of the room builders, so the room set is a pure
function of the config. -/
def generate_layout (cfg : Config) : List Room :=
  let pre := ((List.range cfg.num_levels).foldl
    (fun st level => generate_level cfg level st) ([], 0)).1
  create_vertical_connections pre

/-- The id/connection-list graph of a room set. -/
def room_graph (rooms : List Room) : List (Nat × List Nat) :=
  rooms.map fun r => (r.id, r.connections)

/-- All connection-list entries recorded for the id `v`. -/
def neighbors_of (g : List (Nat × List Nat)) (v : Nat) : List Nat :=
  (g.filter fun p => decide (p.1 = v)).flatMap Prod.snd

/-- One breadth-first expansion step: the current front plus every recorded
neighbor of it. -/
def reach_step (g : List (Nat × List Nat)) (cur : List Nat) : List Nat :=
  (cur ++ cur.flatMap (neighbors_of g)).dedup

/-- Ids reachable from `s` in at most `fuel` steps of the connection graph. -/
def reach_from (g : List (Nat × List Nat)) (s : Nat) : Nat → List Nat
  | 0 => [s]
  | fuel + 1 => reach_step g (reach_from g s fuel)

/-- The id of the ground-floor main hall (the first `MAIN_HALL` room created
on level 0; `0` for every generated layout, since the main hall is the first
room `_generate_ground_floor` creates). -/
def main_hall_id (rooms : List Room) : Nat :=
  ((rooms.filter fun r =>
    decide (r.level = 0) && decide (r.room_type = RoomType.MAIN_HALL)).map Room.id).headI

/-- The breadth-first reachability check of the spec (§8): every generated
room is reachable from the ground-floor main hall via the connection graph.
`rooms.length` expansion steps always reach everything reachable. -/
def all_reachable_from_main (rooms : List Room) : Bool :=
  rooms.all fun r =>
    decide (r.id ∈ reach_from (room_graph rooms) (main_hall_id rooms) rooms.length)

/-- Modelled from the spec (§7): a valid `Config` has all linear dimensions
positive, `0 ≤ wall_taper < 0.5`, and a level count in `[2, 6]`.  (The source
itself contains no validation code; this predicate names the validity notion
the claims quantify over.) -/
def spec_valid_config (cfg : Config) : Prop :=
  0 < cfg.base_width ∧ 0 < cfg.base_depth ∧ 0 < cfg.base_height ∧
  0 < cfg.wall_thickness ∧ 0 < cfg.floor_thickness ∧ 0 < cfg.interior_wall_thickness ∧
  0 < cfg.level_height ∧ 0 < cfg.main_hall_w ∧ 0 < cfg.main_hall_d ∧
  0 < cfg.corridor_width ∧ 0 < cfg.corridor_length ∧
  0 < cfg.side_chamber_w ∧ 0 < cfg.side_chamber_d ∧
  0 < cfg.equipment_room_w ∧ 0 < cfg.equipment_room_d ∧
  0 < cfg.doorway_width ∧ 0 < cfg.doorway_height ∧
  0 < cfg.ramp_width ∧ 0 < cfg.entrance_width ∧ 0 < cfg.entrance_height ∧
  0 ≤ cfg.wall_taper ∧ cfg.wall_taper < 0.5 ∧
  2 ≤ cfg.num_levels ∧ cfg.num_levels ≤ 6

instance (cfg : Config) : Decidable (spec_valid_config cfg) := by
  unfold spec_valid_config
  infer_instance

/-- The keyword overrides of `generate_base(**kwargs)`, modelled for the
config fields the repository's own callers pass (the v7 UI operator passes
`base_width`, `base_depth` and `wall_taper`); a keyword naming no config
field is ignored by the source (`if hasattr(cfg, key)`), so unknown keys
have no representation here. -/
structure Overrides where
  base_width : Option ℚ := none
  base_depth : Option ℚ := none
  wall_taper : Option ℚ := none

/-- The `style_map.get(style.lower(), BaseStyle.PYRAMID)` lookup of
`generate_base`. -/
def style_of_string (s : String) : BaseStyle :=
  let l := s.toLower
  if l = "pyramid" then BaseStyle.PYRAMID
  else if l = "stepped" then BaseStyle.STEPPED_PYRAMID
  else if l = "tower" then BaseStyle.TOWER_ON_BASE
  else BaseStyle.PYRAMID

/-- The `setattr` loop of `generate_base` over the modelled keyword
overrides. -/
def apply_overrides (cfg : Config) (kw : Overrides) : Config :=
  let cfg := match kw.base_width with
    | some v => { cfg with base_width := v }
    | none => cfg
  let cfg := match kw.base_depth with
    | some v => { cfg with base_depth := v }
    | none => cfg
  match kw.wall_taper with
  | some v => { cfg with wall_taper := v }
  | none => cfg

/-- `generate_base(style, seed, num_levels, **kwargs)` up to the point where
the configured generator is invoked: style lookup with silent fallback, seed
substitution (`now` stands for `int(time.time())`), silent clamping of
`num_levels` into `[2, 6]`, derivation of `base_height`, then the overrides.
The function is total: no input is ever rejected. -/
def generate_base_config (style : String) (seed : Option Int) (num_levels : Int)
    (kw : Overrides) (now : Int) : Config :=
  let cfg : Config := {}
  let cfg := { cfg with style := style_of_string style }
  let cfg := { cfg with seed := match seed with | some s => s | none => now % 100000 }
  let cfg := { cfg with num_levels := (max 2 (min 6 num_levels)).toNat }
  let cfg := { cfg with base_height := (cfg.num_levels : ℚ) * cfg.level_height + 8 }
  apply_overrides cfg kw

/-- Taper amount used by `_build_exterior`
(`taper_amount = cfg.base_height * cfg.wall_taper`). -/
def exterior_taper_amount (cfg : Config) : ℚ := cfg.base_height * cfg.wall_taper

/-- Top width of the exterior shell
(`top_w = cfg.base_width - taper_amount * 2`). -/
def exterior_top_width (cfg : Config) : ℚ :=
  cfg.base_width - exterior_taper_amount cfg * 2

/-- Top depth of the exterior shell
(`top_d = cfg.base_depth - taper_amount * 2`). -/
def exterior_top_depth (cfg : Config) : ℚ :=
  cfg.base_depth - exterior_taper_amount cfg * 2

end V4

/-- A bmesh accumulator: vertex positions in creation order, and faces as
lists of vertex indices. -/
structure Mesh where
  verts : List (ℝ × ℝ × ℝ) := []
  faces : List (List Nat) := []

namespace V4

/-- `MeshBuilder._add_tapered_box_faces`: one frustum (quad bottom, quad top,
four trapezoidal sides), wound outward (`invert = false`) or inward
(`invert = true`); the `for i in range(4)` side loop is unrolled. -/
noncomputable def add_tapered_box_faces (m : Mesh)
    (base_w base_d top_w top_d height base_z : ℝ) (invert : Bool) : Mesh :=
  let bw := base_w / 2
  let bd := base_d / 2
  let tw := top_w / 2
  let td := top_d / 2
  let z0 := base_z
  let z1 := base_z + height
  let n := m.verts.length
  let vs : List (ℝ × ℝ × ℝ) :=
    [(-bw, -bd, z0), (bw, -bd, z0), (bw, bd, z0), (-bw, bd, z0),
     (-tw, -td, z1), (tw, -td, z1), (tw, td, z1), (-tw, td, z1)]
  let fs : List (List Nat) :=
    if invert then
      [[n, n + 1, n + 2, n + 3], [n + 7, n + 6, n + 5, n + 4],
       [n + 4, n + 5, n + 1, n], [n + 5, n + 6, n + 2, n + 1],
       [n + 6, n + 7, n + 3, n + 2], [n + 7, n + 4, n, n + 3]]
    else
      [[n + 3, n + 2, n + 1, n], [n + 4, n + 5, n + 6, n + 7],
       [n, n + 1, n + 5, n + 4], [n + 1, n + 2, n + 6, n + 5],
       [n + 2, n + 3, n + 7, n + 6], [n + 3, n, n + 4, n + 7]]
  { verts := m.verts ++ vs, faces := m.faces ++ fs }

/-- `MeshBuilder.add_tapered_shell`: outer frustum wound outward plus inner
frustum (shrunk by twice the wall thickness) wound inward. -/
noncomputable def add_tapered_shell (m : Mesh)
    (base_w base_d top_w top_d height wall_thick base_z : ℝ) : Mesh :=
  let m1 := add_tapered_box_faces m base_w base_d top_w top_d height base_z false
  add_tapered_box_faces m1 (base_w - wall_thick * 2) (base_d - wall_thick * 2)
    (top_w - wall_thick * 2) (top_d - wall_thick * 2) height base_z true

/-- `MeshBuilder.add_ramp` of v4: no-op when the horizontal projection length
is below `0.01`, otherwise a sloped quad top, a parallel bottom offset by
`thickness`, and four side/cap faces. -/
noncomputable def add_ramp (m : Mesh)
    (x1 y1 z1 x2 y2 z2 width thickness : ℝ) : Mesh :=
  let dx := x2 - x1
  let dy := y2 - y1
  let length := Real.sqrt (dx * dx + dy * dy)
  if length < 0.01 then m
  else
    let px := -dy / length * width / 2
    let py := dx / length * width / 2
    let n := m.verts.length
    { verts := m.verts ++
        [(x1 - px, y1 - py, z1), (x1 + px, y1 + py, z1),
         (x2 + px, y2 + py, z2), (x2 - px, y2 - py, z2),
         (x1 - px, y1 - py, z1 - thickness), (x1 + px, y1 + py, z1 - thickness),
         (x2 + px, y2 + py, z2 - thickness), (x2 - px, y2 - py, z2 - thickness)],
      faces := m.faces ++
        [[n, n + 1, n + 2, n + 3], [n + 7, n + 6, n + 5, n + 4],
         [n, n + 3, n + 7, n + 4], [n + 1, n + 5, n + 6, n + 2],
         [n, n + 4, n + 5, n + 1], [n + 2, n + 6, n + 7, n + 3]] }

/-- `TribesBaseGenerator._build_exterior`: a single shell for `PYRAMID`, a
stack of four shrinking shells for `STEPPED_PYRAMID`, and a wide base plus a
narrower tower for `TOWER_ON_BASE`. -/
noncomputable def build_exterior (cfg : Config) : Mesh :=
  let top_w : ℝ := (exterior_top_width cfg : ℝ)
  let top_d : ℝ := (exterior_top_depth cfg : ℝ)
  match cfg.style with
  | BaseStyle.PYRAMID =>
      add_tapered_shell {} (cfg.base_width : ℝ) (cfg.base_depth : ℝ) top_w top_d
        (cfg.base_height : ℝ) (cfg.wall_thickness : ℝ) 0
  | BaseStyle.STEPPED_PYRAMID =>
      let tier_h : ℝ := (cfg.base_height : ℝ) / 4
      (List.range 4).foldl (fun m tier =>
        let scale : ℝ := 1 - (tier : ℝ) * 0.18
        let top_scale : ℝ := scale - 0.04
        add_tapered_shell m ((cfg.base_width : ℝ) * scale) ((cfg.base_depth : ℝ) * scale)
          ((cfg.base_width : ℝ) * top_scale) ((cfg.base_depth : ℝ) * top_scale)
          tier_h (cfg.wall_thickness : ℝ) ((tier : ℝ) * tier_h)) {}
  | BaseStyle.TOWER_ON_BASE =>
      let base_h : ℝ := (cfg.base_height : ℝ) * 0.35
      let m := add_tapered_shell {} ((cfg.base_width : ℝ) * 1.2) ((cfg.base_depth : ℝ) * 1.2)
        ((cfg.base_width : ℝ) * 1.1) ((cfg.base_depth : ℝ) * 1.1)
        base_h (cfg.wall_thickness : ℝ) 0
      add_tapered_shell m ((cfg.base_width : ℝ) * 0.6) ((cfg.base_depth : ℝ) * 0.6)
        ((cfg.base_width : ℝ) * 0.5) ((cfg.base_depth : ℝ) * 0.5)
        ((cfg.base_height : ℝ) * 0.65) (cfg.wall_thickness : ℝ) base_h

end V4

namespace V7

/-- `MeshBuilder.add_box` of v7: bottom quad (reversed), top quad, and the
four side quads of the unrolled `for i in range(4)` loop. -/
noncomputable def add_box (m : Mesh) (x y z w d h : ℝ) : Mesh :=
  let hw := w / 2
  let hd := d / 2
  let n := m.verts.length
  { verts := m.verts ++
      [(x - hw, y - hd, z), (x + hw, y - hd, z), (x + hw, y + hd, z), (x - hw, y + hd, z),
       (x - hw, y - hd, z + h), (x + hw, y - hd, z + h),
       (x + hw, y + hd, z + h), (x - hw, y + hd, z + h)],
    faces := m.faces ++
      [[n + 3, n + 2, n + 1, n], [n + 4, n + 5, n + 6, n + 7],
       [n, n + 1, n + 5, n + 4], [n + 1, n + 2, n + 6, n + 5],
       [n + 2, n + 3, n + 7, n + 6], [n + 3, n, n + 4, n + 7]] }

/-- `MeshBuilder.add_column` of v7: a widened base box, a shaft, and a
widened cap. -/
noncomputable def add_column (m : Mesh) (x y z_base z_top width : ℝ) : Mesh :=
  let base_h : ℝ := 1.5
  let cap_h : ℝ := 1
  let shaft_h := z_top - z_base - base_h - cap_h
  let m1 := add_box m x y z_base (width * 1.4) (width * 1.4) base_h
  let m2 := add_box m1 x y (z_base + base_h) width width shaft_h
  add_box m2 x y (z_top - cap_h) (width * 1.3) (width * 1.3) cap_h

/-- `MeshBuilder.add_ramp` of v7: no-op below the `0.01` length epsilon;
otherwise the six-face ramp solid followed by the two edge-rail boxes of the
`for side in [-1, 1]` loop, unrolled. -/
noncomputable def add_ramp (m : Mesh) (x1 y1 z1 x2 y2 z2 width edge_h : ℝ) : Mesh :=
  let dx := x2 - x1
  let dy := y2 - y1
  let length := Real.sqrt (dx * dx + dy * dy)
  if length < 0.01 then m
  else
    let px := -dy / length * width / 2
    let py := dx / length * width / 2
    let thick : ℝ := 0.5
    let n := m.verts.length
    let m1 : Mesh :=
      { verts := m.verts ++
          [(x1 - px, y1 - py, z1), (x1 + px, y1 + py, z1),
           (x2 + px, y2 + py, z2), (x2 - px, y2 - py, z2),
           (x1 - px, y1 - py, z1 - thick), (x1 + px, y1 + py, z1 - thick),
           (x2 + px, y2 + py, z2 - thick), (x2 - px, y2 - py, z2 - thick)],
        faces := m.faces ++
          [[n, n + 1, n + 2, n + 3], [n + 7, n + 6, n + 5, n + 4],
           [n, n + 3, n + 7, n + 4], [n + 1, n + 5, n + 6, n + 2],
           [n, n + 4, n + 5, n + 1], [n + 2, n + 6, n + 7, n + 3]] }
    let ew : ℝ := 0.4
    let epx := -dy / length * ew / 2
    let epy := dx / length * ew / 2
    let rail := fun (side : ℝ) (mm : Mesh) =>
      let rx1 := x1 + side * (px - epx)
      let ry1 := y1 + side * (py - epy)
      let rx2 := x2 + side * (px - epx)
      let ry2 := y2 + side * (py - epy)
      add_box mm ((rx1 + rx2) / 2) ((ry1 + ry2) / 2) ((z1 + z2) / 2) ew length edge_h
    rail 1 (rail (-1) m1)

end V7

namespace V4

/-- One ramp segment, from start point to end point. -/
structure RampSeg where
  x1 : ℝ
  y1 : ℝ
  z1 : ℝ
  x2 : ℝ
  y2 : ℝ
  z2 : ℝ

/-- The horizontal run of the inter-level ramps of `_build_ramps`:
`ramp_run = ramp_rise / math.tan(math.radians(cfg.ramp_angle))` with
`ramp_rise = cfg.level_height`. -/
noncomputable def ramp_run (cfg : Config) : ℝ :=
  (cfg.level_height : ℝ) / Real.tan ((cfg.ramp_angle : ℝ) * Real.pi / 180)

/-- The endpoints `_build_ramps` passes to `add_ramp` for the ramp that
connects `level` to `level + 1`: east / west / north / south placement by
`level % 4`, rising from `z_start = (level + 1) * level_height +
floor_thickness` to `z_end = z_start + ramp_rise`. -/
noncomputable def ramp_placement (cfg : Config) (level : Nat) : RampSeg :=
  let ramp_rise : ℝ := (cfg.level_height : ℝ)
  let run := ramp_run cfg
  let z_start : ℝ := ((level : ℝ) + 1) * (cfg.level_height : ℝ) + (cfg.floor_thickness : ℝ)
  let z_end := z_start + ramp_rise
  if level % 4 = 0 then ⟨12, -run / 2, z_start, 12, run / 2, z_end⟩
  else if level % 4 = 1 then ⟨-12, run / 2, z_start, -12, -run / 2, z_end⟩
  else if level % 4 = 2 then ⟨-run / 2, 12, z_start, run / 2, 12, z_end⟩
  else ⟨run / 2, -12, z_start, -run / 2, -12, z_end⟩

/-- Horizontal projection length of a ramp segment. -/
noncomputable def ramp_horizontal_run (s : RampSeg) : ℝ :=
  Real.sqrt ((s.x2 - s.x1) ^ 2 + (s.y2 - s.y1) ^ 2)

end V4

namespace V7

/-- Base styles of v7 (`class BaseStyle(Enum)`). -/
inductive BaseStyle
  | PYRAMID
  | STEPPED
  | TOWER
deriving DecidableEq, Repr

/-- Generation configuration, from `@dataclass class Config` of v7, with the
same defaults. -/
structure Config where
  base_width : ℚ := 80
  base_depth : ℚ := 80
  base_height : ℚ := 60
  wall_taper : ℚ := 0.2
  exterior_wall_thickness : ℚ := 4
  interior_wall_thickness : ℚ := 1.5
  floor_thickness : ℚ := 1.5
  num_levels : Nat := 4
  level_height : ℚ := 14
  trim_height : ℚ := 0.8
  trim_inset : ℚ := 0.3
  column_width : ℚ := 3
  platform_edge_height : ℚ := 0.6
  doorway_width : ℚ := 8
  doorway_height : ℚ := 10
  ramp_width : ℚ := 8
  atrium_width : ℚ := 28
  atrium_depth : ℚ := 28
  style : BaseStyle := BaseStyle.PYRAMID
  seed : Int := 42

/-- Modelled from the spec (§9): the per-generation-run pseudo-random stream.
The source constructs `random.Random(cfg.seed)` — CPython's Mersenne
Twister, which is not part of this repository; the spec requires only that
the stream be a pure function of the seed (`seeded pseudo-randomness as a
pure input`).  This mixing function stands in for the Twister; no claim
depends on the concrete values drawn, only on their seed-determinism. -/
def rng_raw (seed : Int) (i : Nat) : Nat :=
  (seed.natAbs * 2654435761 + i * 1103515245 + 12345) % 4294967296

/-- The modelled `random.Random` object: the seed it was built from and the
number of draws consumed so far. -/
structure PyRandom where
  seed : Int
  idx : Nat

/-- A draw uniform on `[0, n)`, advancing the stream (models
`Random._randbelow`). -/
def PyRandom.randbelow (r : PyRandom) (n : Nat) : Nat × PyRandom :=
  (rng_raw r.seed r.idx % n, { r with idx := r.idx + 1 })

/-- `Random.choice`: pick the element at a `_randbelow(len(xs))` index. -/
def PyRandom.choice (r : PyRandom) (xs : List α) (dflt : α) : α × PyRandom :=
  let p := r.randbelow xs.length
  (xs.getD p.1 dflt, p.2)

/-- `Random.randint(a, b)`: uniform on the closed interval `[a, b]`. -/
def PyRandom.randint (r : PyRandom) (a b : Nat) : Nat × PyRandom :=
  let p := r.randbelow (b - a + 1)
  (a + p.1, p.2)

/-- The ordered topology choices `LayoutGenerator.__init__` draws from the
seeded stream: corridor configuration, center-platform flag, column pattern,
ramp style, balcony configuration, side-room count, entrance
configuration. -/
structure LayoutChoices where
  corridor_config : String
  has_center_platform : Bool
  column_pattern : String
  ramp_style : String
  balcony_config : String
  num_side_rooms : Nat
  entrance_config : String
deriving DecidableEq, Repr

/-- `LayoutGenerator.__init__`: the seven draws, in source order, from the
stream seeded with `cfg.seed`. -/
def layout_init (cfg : Config) : LayoutChoices :=
  let r0 : PyRandom := { seed := cfg.seed, idx := 0 }
  let d1 := r0.choice ["cross", "T_north", "T_south", "L_ne", "L_sw", "H"] "cross"
  let d2 := d1.2.choice [true, true, false] true
  let d3 := d2.2.choice ["corners", "sides", "ring", "minimal"] "corners"
  let d4 := d3.2.choice ["spiral", "opposing", "central", "corner"] "spiral"
  let d5 := d4.2.choice ["full_ring", "opposing", "single", "corners"] "full_ring"
  let d6 := d5.2.randint 0 4
  let d7 := d6.2.choice ["north_south", "all_sides", "single", "diagonal"] "north_south"
  { corridor_config := d1.1, has_center_platform := d2.1, column_pattern := d3.1,
    ramp_style := d4.1, balcony_config := d5.1, num_side_rooms := d6.1,
    entrance_config := d7.1 }

end V7

/-- The undirected edges of one face, each normalized to
(smaller index, larger index): consecutive vertices are joined, including
the closing edge from the last vertex back to the first. -/
def face_edges (f : List Nat) : List (Nat × Nat) :=
  (f.zip (f.rotate 1)).map fun p => (min p.1 p.2, max p.1 p.2)

/-- All edges of a face set, with multiplicity. -/
def all_edges (faces : List (List Nat)) : List (Nat × Nat) :=
  faces.flatMap face_edges

/-- Closed-2-manifold check on a face set: every edge occurring in the face
set occurs in it exactly twice. -/
def closed_manifold (faces : List (List Nat)) : Bool :=
  (all_edges faces).all fun e => decide ((all_edges faces).count e = 2)

/-- The config used to exhibit a connectivity failure: all defaults of the
v4 `Config` except a 60 × 60 main hall (all dimensions positive, taper 0.25,
four levels — valid per §7). -/
def connectivity_cex_config : V4.Config := { main_hall_w := 60, main_hall_d := 60 }

/-- The config of the spec's taper-arithmetic example (§8). -/
def taper_example_config : V4.Config := { base_width := 64, base_height := 48, wall_taper := 0.3 }

/-- The config of the spec's ramp-geometry example (§8): rise 10 at a
30-degree ramp angle. -/
def ramp_example_config : V4.Config := { level_height := 10, ramp_angle := 30 }



/-- Rooms created by the per-level pass of `generate_layout`, before the
vertical-connection pass. -/
def pre_rooms (cfg : V4.Config) : List V4.Room :=
  ((List.range cfg.num_levels).foldl (fun st level => V4.generate_level cfg level st) ([], 0)).1

/-- A room list with its connection lists replaced by the given table.  Used
to state the intermediate results of the vertical-connection pass compactly:
the pass only ever changes connection lists. -/
def with_conns (rs : List V4.Room) (cs : List (List Nat)) : List V4.Room :=
  rs.zipWith (fun r c => { r with connections := c }) cs

/-- One outer iteration of the vertical-connection pass: the inner
`for other in self.rooms` loop for a fixed outer room index `i`. -/
def vc_outer (n : Nat) (rs : List V4.Room) (i : Nat) : List V4.Room :=
  (List.range n).foldl (fun rs2 j => V4.vertical_pair rs2 i j) rs

/-- Connection graph of the generated layout (default config). -/

def GD : List (Nat × List Nat) := [(0, [1, 2, 3, 4]), (1, [0, 5, 11]), (2, [0, 6, 12]), (3, [0, 7, 8]), (4, [0, 9, 10]), (5, [1]), (6, [2]), (7, [3, 15]), (8, [3, 17]), (9, [4, 16]), (10, [4, 18]), (11, [13, 14, 15, 16, 1, 19]), (12, [13, 14, 17, 18, 2, 20]), (13, [11, 12, 15, 17, 21]), (14, [11, 12, 16, 18, 22]), (15, [11, 13, 7]), (16, [11, 14, 9]), (17, [12, 13, 8]), (18, [12, 14, 10]), (19, [21, 22, 11]), (20, [21, 22, 12]), (21, [19, 20, 13, 24]), (22, [19, 20, 14, 25]), (23, [24, 25]), (24, [23, 21]), (25, [23, 22])]

/-- Connection table after outer rows below 4 of the vertical pass. -/

def TD4 : List (List Nat) := [[1, 2, 3, 4], [0, 5, 11], [0, 6, 12], [0, 7, 8], [0, 9, 10], [1], [2], [3], [3], [4], [4], [13, 14, 15, 16, 1], [13, 14, 17, 18, 2], [11, 12, 15, 17], [11, 12, 16, 18], [11, 13], [11, 14], [12, 13], [12, 14], [21, 22], [21, 22], [19, 20], [19, 20], [24, 25], [23], [23]]

/-- Connection table after outer rows below 8 of the vertical pass. -/

def TD8 : List (List Nat) := [[1, 2, 3, 4], [0, 5, 11], [0, 6, 12], [0, 7, 8], [0, 9, 10], [1], [2], [3, 15], [3], [4], [4], [13, 14, 15, 16, 1], [13, 14, 17, 18, 2], [11, 12, 15, 17], [11, 12, 16, 18], [11, 13, 7], [11, 14], [12, 13], [12, 14], [21, 22], [21, 22], [19, 20], [19, 20], [24, 25], [23], [23]]

/-- Connection table after outer rows below 12 of the vertical pass. -/

def TD12 : List (List Nat) := [[1, 2, 3, 4], [0, 5, 11], [0, 6, 12], [0, 7, 8], [0, 9, 10], [1], [2], [3, 15], [3, 17], [4, 16], [4, 18], [13, 14, 15, 16, 1, 19], [13, 14, 17, 18, 2], [11, 12, 15, 17], [11, 12, 16, 18], [11, 13, 7], [11, 14, 9], [12, 13, 8], [12, 14, 10], [21, 22, 11], [21, 22], [19, 20], [19, 20], [24, 25], [23], [23]]

/-- Connection table after outer rows below 16 of the vertical pass. -/

def TD16 : List (List Nat) := [[1, 2, 3, 4], [0, 5, 11], [0, 6, 12], [0, 7, 8], [0, 9, 10], [1], [2], [3, 15], [3, 17], [4, 16], [4, 18], [13, 14, 15, 16, 1, 19], [13, 14, 17, 18, 2, 20], [11, 12, 15, 17, 21], [11, 12, 16, 18, 22], [11, 13, 7], [11, 14, 9], [12, 13, 8], [12, 14, 10], [21, 22, 11], [21, 22, 12], [19, 20, 13], [19, 20, 14], [24, 25], [23], [23]]

/-- Connection table after outer rows below 20 of the vertical pass. -/

def TD20 : List (List Nat) := [[1, 2, 3, 4], [0, 5, 11], [0, 6, 12], [0, 7, 8], [0, 9, 10], [1], [2], [3, 15], [3, 17], [4, 16], [4, 18], [13, 14, 15, 16, 1, 19], [13, 14, 17, 18, 2, 20], [11, 12, 15, 17, 21], [11, 12, 16, 18, 22], [11, 13, 7], [11, 14, 9], [12, 13, 8], [12, 14, 10], [21, 22, 11], [21, 22, 12], [19, 20, 13], [19, 20, 14], [24, 25], [23], [23]]

/-- Connection table after outer rows below 24 of the vertical pass. -/

def TD24 : List (List Nat) := [[1, 2, 3, 4], [0, 5, 11], [0, 6, 12], [0, 7, 8], [0, 9, 10], [1], [2], [3, 15], [3, 17], [4, 16], [4, 18], [13, 14, 15, 16, 1, 19], [13, 14, 17, 18, 2, 20], [11, 12, 15, 17, 21], [11, 12, 16, 18, 22], [11, 13, 7], [11, 14, 9], [12, 13, 8], [12, 14, 10], [21, 22, 11], [21, 22, 12], [19, 20, 13, 24], [19, 20, 14, 25], [24, 25], [23, 21], [23, 22]]

/-- Connection table after outer rows below 26 of the vertical pass. -/

def TD26 : List (List Nat) := [[1, 2, 3, 4], [0, 5, 11], [0, 6, 12], [0, 7, 8], [0, 9, 10], [1], [2], [3, 15], [3, 17], [4, 16], [4, 18], [13, 14, 15, 16, 1, 19], [13, 14, 17, 18, 2, 20], [11, 12, 15, 17, 21], [11, 12, 16, 18, 22], [11, 13, 7], [11, 14, 9], [12, 13, 8], [12, 14, 10], [21, 22, 11], [21, 22, 12], [19, 20, 13, 24], [19, 20, 14, 25], [24, 25], [23, 21], [23, 22]]

/-- Connection graph of the generated layout (counterexample config). -/

def GX : List (Nat × List Nat) := [(0, [1, 2, 3, 4]), (1, [0, 5]), (2, [0, 6]), (3, [0]), (4, [0]), (5, [1]), (6, [2]), (7, [9, 10, 11, 12, 15]), (8, [9, 10, 13, 14, 16]), (9, [7, 8, 11, 13, 17]), (10, [7, 8, 12, 14, 18]), (11, [7, 9]), (12, [7, 10]), (13, [8, 9]), (14, [8, 10]), (15, [17, 18, 7]), (16, [17, 18, 8]), (17, [15, 16, 9, 20]), (18, [15, 16, 10, 21]), (19, [20, 21]), (20, [19, 17]), (21, [19, 18])]

/-- Connection table after outer rows below 4 of the vertical pass. -/

def TX4 : List (List Nat) := [[1, 2, 3, 4], [0, 5], [0, 6], [0], [0], [1], [2], [9, 10, 11, 12], [9, 10, 13, 14], [7, 8, 11, 13], [7, 8, 12, 14], [7, 9], [7, 10], [8, 9], [8, 10], [17, 18], [17, 18], [15, 16], [15, 16], [20, 21], [19], [19]]

/-- Connection table after outer rows below 8 of the vertical pass. -/

def TX8 : List (List Nat) := [[1, 2, 3, 4], [0, 5], [0, 6], [0], [0], [1], [2], [9, 10, 11, 12, 15], [9, 10, 13, 14], [7, 8, 11, 13], [7, 8, 12, 14], [7, 9], [7, 10], [8, 9], [8, 10], [17, 18, 7], [17, 18], [15, 16], [15, 16], [20, 21], [19], [19]]

/-- Connection table after outer rows below 12 of the vertical pass. -/

def TX12 : List (List Nat) := [[1, 2, 3, 4], [0, 5], [0, 6], [0], [0], [1], [2], [9, 10, 11, 12, 15], [9, 10, 13, 14, 16], [7, 8, 11, 13, 17], [7, 8, 12, 14, 18], [7, 9], [7, 10], [8, 9], [8, 10], [17, 18, 7], [17, 18, 8], [15, 16, 9], [15, 16, 10], [20, 21], [19], [19]]

/-- Connection table after outer rows below 16 of the vertical pass. -/

def TX16 : List (List Nat) := [[1, 2, 3, 4], [0, 5], [0, 6], [0], [0], [1], [2], [9, 10, 11, 12, 15], [9, 10, 13, 14, 16], [7, 8, 11, 13, 17], [7, 8, 12, 14, 18], [7, 9], [7, 10], [8, 9], [8, 10], [17, 18, 7], [17, 18, 8], [15, 16, 9], [15, 16, 10], [20, 21], [19], [19]]

/-- Connection table after outer rows below 20 of the vertical pass. -/

def TX20 : List (List Nat) := [[1, 2, 3, 4], [0, 5], [0, 6], [0], [0], [1], [2], [9, 10, 11, 12, 15], [9, 10, 13, 14, 16], [7, 8, 11, 13, 17], [7, 8, 12, 14, 18], [7, 9], [7, 10], [8, 9], [8, 10], [17, 18, 7], [17, 18, 8], [15, 16, 9, 20], [15, 16, 10, 21], [20, 21], [19, 17], [19, 18]]

/-- Connection table after outer rows below 22 of the vertical pass. -/

def TX22 : List (List Nat) := [[1, 2, 3, 4], [0, 5], [0, 6], [0], [0], [1], [2], [9, 10, 11, 12, 15], [9, 10, 13, 14, 16], [7, 8, 11, 13, 17], [7, 8, 12, 14, 18], [7, 9], [7, 10], [8, 9], [8, 10], [17, 18, 7], [17, 18, 8], [15, 16, 9, 20], [15, 16, 10, 21], [20, 21], [19, 17], [19, 18]]

/-- The claim's symmetry property: for every pair of generated rooms, each
appears in the other's connection list iff the converse holds. -/
def symm_conn (rooms : List V4.Room) : Prop :=
  ∀ a ∈ rooms, ∀ b ∈ rooms, (a.id ∈ b.connections ↔ b.id ∈ a.connections)

/-- Symmetry of an id/connection-list graph. -/
def graph_symm (g : List (Nat × List Nat)) : Prop :=
  ∀ p ∈ g, ∀ q ∈ g, (p.1 ∈ q.2 ↔ q.1 ∈ p.2)

/-- Every id and connection entry of the graph lies in `[lo, hi)`. -/
def graph_bounded (lo hi : Nat) (g : List (Nat × List Nat)) : Prop :=
  ∀ p ∈ g, (lo ≤ p.1 ∧ p.1 < hi) ∧ ∀ c ∈ p.2, lo ≤ c ∧ c < hi

/-- A graph with all ids and connection entries shifted up by `n`. -/
def shift_graph (n : Nat) (g : List (Nat × List Nat)) : List (Nat × List Nat) :=
  g.map fun p => (n + p.1, p.2.map (n + ·))

/-- The properties a per-level room block must have for the symmetry
invariant: an internally symmetric graph, duplicate-free ids, and all ids
and connection entries within the block's own id range. -/
def block_props (b : List V4.Room) (n : Nat) : Prop :=
  graph_symm (V4.room_graph b) ∧ ((V4.room_graph b).map Prod.fst).Nodup ∧
    graph_bounded n (n + b.length) (V4.room_graph b)

/-- The invariant of the per-level generation fold: connection symmetry,
duplicate-free ids, and all ids and connection entries below the counter. -/
def pre_inv (st : List V4.Room × Nat) : Prop :=
  symm_conn st.1 ∧ (st.1.map V4.Room.id).Nodup ∧
    ∀ r ∈ st.1, r.id < st.2 ∧ ∀ c ∈ r.connections, c < st.2

/-- The index-based form of the invariant carried through the
vertical-connection pass: rooms at distinct positions have distinct ids, and
the connection relation is symmetric position-wise. -/
def idx_inv (rooms : List V4.Room) : Prop :=
  (∀ i j (hi : i < rooms.length) (hj : j < rooms.length), i ≠ j →
      (rooms.get ⟨i, hi⟩).id ≠ (rooms.get ⟨j, hj⟩).id) ∧
  (∀ i j (hi : i < rooms.length) (hj : j < rooms.length),
      ((rooms.get ⟨i, hi⟩).id ∈ (rooms.get ⟨j, hj⟩).connections ↔
        (rooms.get ⟨j, hj⟩).id ∈ (rooms.get ⟨i, hi⟩).connections))


instance (g : List (Nat × List Nat)) : Decidable (graph_symm g) := by
  unfold graph_symm
  infer_instance

instance (lo hi : Nat) (g : List (Nat × List Nat)) : Decidable (graph_bounded lo hi g) := by
  unfold graph_bounded
  infer_instance

instance (b : List V4.Room) (n : Nat) : Decidable (block_props b n) := by
  unfold block_props
  infer_instance

/-- Room 0 (the ground-floor main hall) of the default-configuration layout. -/
def c9_roomA : V4.Room :=
  { id := 0, room_type := V4.RoomType.MAIN_HALL, x := 0, y := 0, z := 1,
    width := 24, depth := 24, height := 11, level := 0, connections := [1, 2, 3, 4] }

/-- Room 1 (a ground-floor corridor) of the default-configuration layout. -/
def c9_roomB : V4.Room :=
  { id := 1, room_type := V4.RoomType.CORRIDOR, x := 0, y := 20, z := 1,
    width := 8, depth := 16, height := 11, level := 0, connections := [0, 5, 11] }

/-! ## Helper lemmas -/

theorem list_foldl_flatMap {α β γ : Type} (g : β → α → β) (f : γ → List α) (l : List γ) (b : β) :
    (l.flatMap f).foldl g b = l.foldl (fun acc c => (f c).foldl g acc) b := by
  induction l generalizing b with
  | nil => rfl
  | cons a t ih => simp only [List.flatMap_cons, List.foldl_append, List.foldl_cons, ih]

/-- The flattened pair fold of `create_vertical_connections` is the nested
row-by-row fold. -/
theorem cvc_eq (rooms : List V4.Room) :
    V4.create_vertical_connections rooms =
      (List.range rooms.length).foldl (vc_outer rooms.length) rooms := by
  unfold V4.create_vertical_connections vc_outer
  rw [list_foldl_flatMap]
  simp only [List.foldl_map]

set_option maxRecDepth 16000 in
theorem vcD4 : List.foldl (vc_outer 26) (pre_rooms ({} : V4.Config)) [0, 1, 2, 3] =
    with_conns (pre_rooms ({} : V4.Config)) TD4 := by
  with_unfolding_all rfl

set_option maxRecDepth 16000 in
theorem vcD8 : List.foldl (vc_outer 26) (with_conns (pre_rooms ({} : V4.Config)) TD4) [4, 5, 6, 7] =
    with_conns (pre_rooms ({} : V4.Config)) TD8 := by
  with_unfolding_all rfl

set_option maxRecDepth 16000 in
theorem vcD12 : List.foldl (vc_outer 26) (with_conns (pre_rooms ({} : V4.Config)) TD8) [8, 9, 10, 11] =
    with_conns (pre_rooms ({} : V4.Config)) TD12 := by
  with_unfolding_all rfl

set_option maxRecDepth 16000 in
theorem vcD16 : List.foldl (vc_outer 26) (with_conns (pre_rooms ({} : V4.Config)) TD12) [12, 13, 14, 15] =
    with_conns (pre_rooms ({} : V4.Config)) TD16 := by
  with_unfolding_all rfl

set_option maxRecDepth 16000 in
theorem vcD20 : List.foldl (vc_outer 26) (with_conns (pre_rooms ({} : V4.Config)) TD16) [16, 17, 18, 19] =
    with_conns (pre_rooms ({} : V4.Config)) TD20 := by
  with_unfolding_all rfl

set_option maxRecDepth 16000 in
theorem vcD24 : List.foldl (vc_outer 26) (with_conns (pre_rooms ({} : V4.Config)) TD20) [20, 21, 22, 23] =
    with_conns (pre_rooms ({} : V4.Config)) TD24 := by
  with_unfolding_all rfl

set_option maxRecDepth 16000 in
theorem vcD26 : List.foldl (vc_outer 26) (with_conns (pre_rooms ({} : V4.Config)) TD24) [24, 25] =
    with_conns (pre_rooms ({} : V4.Config)) TD26 := by
  with_unfolding_all rfl

set_option maxRecDepth 16000 in
theorem layoutD_eq : V4.generate_layout ({} : V4.Config) = with_conns (pre_rooms ({} : V4.Config)) TD26 := by
  have h0 : V4.generate_layout ({} : V4.Config) =
      V4.create_vertical_connections (pre_rooms ({} : V4.Config)) := rfl
  have hl : (pre_rooms ({} : V4.Config)).length = 26 := by with_unfolding_all rfl
  have hr : List.range 26 = [0, 1, 2, 3] ++ [4, 5, 6, 7] ++ [8, 9, 10, 11] ++ [12, 13, 14, 15] ++ [16, 17, 18, 19] ++ [20, 21, 22, 23] ++ [24, 25] := rfl
  rw [h0, cvc_eq, hl, hr, List.foldl_append, List.foldl_append, List.foldl_append, List.foldl_append, List.foldl_append, List.foldl_append, vcD4, vcD8, vcD12, vcD16, vcD20, vcD24, vcD26]

set_option maxRecDepth 16000 in
theorem graphD_eq : V4.room_graph (with_conns (pre_rooms ({} : V4.Config)) TD26) = GD := by
  with_unfolding_all rfl

set_option maxRecDepth 16000 in
theorem mainhallD_eq : V4.main_hall_id (with_conns (pre_rooms ({} : V4.Config)) TD26) = 0 := by
  with_unfolding_all rfl

set_option maxRecDepth 16000 in
theorem lenD_eq : (with_conns (pre_rooms ({} : V4.Config)) TD26).length = 26 := by
  with_unfolding_all rfl

theorem reachD0 : V4.reach_from GD 0 0 = [0] := rfl

set_option maxRecDepth 16000 in
theorem reachD1 : V4.reach_from GD 0 1 = [0, 1, 2, 3, 4] := by
  rw [show V4.reach_from GD 0 1 = V4.reach_step GD (V4.reach_from GD 0 0) from rfl,
    reachD0]
  with_unfolding_all rfl

set_option maxRecDepth 16000 in
theorem reachD2 : V4.reach_from GD 0 2 = [1, 2, 3, 4, 5, 11, 6, 12, 7, 8, 0, 9, 10] := by
  rw [show V4.reach_from GD 0 2 = V4.reach_step GD (V4.reach_from GD 0 1) from rfl,
    reachD1]
  with_unfolding_all rfl

set_option maxRecDepth 16000 in
theorem reachD3 : V4.reach_from GD 0 3 = [5, 11, 6, 12, 7, 8, 0, 9, 10, 19, 13, 14, 20, 15, 17, 1, 2, 3, 16, 4, 18] := by
  rw [show V4.reach_from GD 0 3 = V4.reach_step GD (V4.reach_from GD 0 2) from rfl,
    reachD2]
  with_unfolding_all rfl

set_option maxRecDepth 16000 in
theorem reachD4 : V4.reach_from GD 0 4 = [19, 20, 1, 2, 3, 4, 15, 17, 16, 18, 21, 22, 13, 5, 6, 7, 8, 11, 0, 9, 12, 14, 10] := by
  rw [show V4.reach_from GD 0 4 = V4.reach_step GD (V4.reach_from GD 0 3) from rfl,
    reachD3]
  with_unfolding_all rfl

set_option maxRecDepth 16000 in
theorem reachD5 : V4.reach_from GD 0 5 = [5, 6, 0, 7, 8, 9, 10, 24, 25, 21, 15, 19, 1, 3, 13, 14, 17, 2, 20, 11, 12, 16, 22, 4, 18] := by
  rw [show V4.reach_from GD 0 5 = V4.reach_step GD (V4.reach_from GD 0 4) from rfl,
    reachD4]
  with_unfolding_all rfl

set_option maxRecDepth 16000 in
theorem reachD6 : V4.reach_from GD 0 6 = [3, 4, 23, 24, 5, 7, 8, 6, 21, 22, 15, 16, 1, 13, 17, 18, 2, 11, 19, 20, 25, 0, 9, 12, 14, 10] := by
  rw [show V4.reach_from GD 0 6 = V4.reach_step GD (V4.reach_from GD 0 5) from rfl,
    reachD5]
  with_unfolding_all rfl

set_option maxRecDepth 16000 in
theorem reachD7 : V4.reach_from GD 0 7 = [24, 25, 7, 9, 5, 8, 10, 0, 6, 15, 19, 21, 23, 1, 3, 13, 14, 17, 2, 20, 11, 12, 16, 22, 4, 18] := by
  rw [show V4.reach_from GD 0 7 = V4.reach_step GD (V4.reach_from GD 0 6) from rfl,
    reachD6]
  with_unfolding_all rfl

set_option maxRecDepth 16000 in
theorem reachD8 : V4.reach_from GD 0 8 = [23, 3, 4, 24, 5, 7, 8, 6, 21, 22, 15, 16, 1, 13, 17, 18, 2, 11, 19, 20, 25, 0, 9, 12, 14, 10] := by
  rw [show V4.reach_from GD 0 8 = V4.reach_step GD (V4.reach_from GD 0 7) from rfl,
    reachD7]
  with_unfolding_all rfl

set_option maxRecDepth 16000 in
theorem reachD9 : V4.reach_from GD 0 9 = [24, 25, 7, 9, 5, 8, 10, 0, 6, 15, 19, 21, 23, 1, 3, 13, 14, 17, 2, 20, 11, 12, 16, 22, 4, 18] := by
  rw [show V4.reach_from GD 0 9 = V4.reach_step GD (V4.reach_from GD 0 8) from rfl,
    reachD8]
  with_unfolding_all rfl

set_option maxRecDepth 16000 in
theorem reachD10 : V4.reach_from GD 0 10 = [23, 3, 4, 24, 5, 7, 8, 6, 21, 22, 15, 16, 1, 13, 17, 18, 2, 11, 19, 20, 25, 0, 9, 12, 14, 10] := by
  rw [show V4.reach_from GD 0 10 = V4.reach_step GD (V4.reach_from GD 0 9) from rfl,
    reachD9]
  with_unfolding_all rfl

set_option maxRecDepth 16000 in
theorem reachD11 : V4.reach_from GD 0 11 = [24, 25, 7, 9, 5, 8, 10, 0, 6, 15, 19, 21, 23, 1, 3, 13, 14, 17, 2, 20, 11, 12, 16, 22, 4, 18] := by
  rw [show V4.reach_from GD 0 11 = V4.reach_step GD (V4.reach_from GD 0 10) from rfl,
    reachD10]
  with_unfolding_all rfl

set_option maxRecDepth 16000 in
theorem reachD12 : V4.reach_from GD 0 12 = [23, 3, 4, 24, 5, 7, 8, 6, 21, 22, 15, 16, 1, 13, 17, 18, 2, 11, 19, 20, 25, 0, 9, 12, 14, 10] := by
  rw [show V4.reach_from GD 0 12 = V4.reach_step GD (V4.reach_from GD 0 11) from rfl,
    reachD11]
  with_unfolding_all rfl

set_option maxRecDepth 16000 in
theorem reachD13 : V4.reach_from GD 0 13 = [24, 25, 7, 9, 5, 8, 10, 0, 6, 15, 19, 21, 23, 1, 3, 13, 14, 17, 2, 20, 11, 12, 16, 22, 4, 18] := by
  rw [show V4.reach_from GD 0 13 = V4.reach_step GD (V4.reach_from GD 0 12) from rfl,
    reachD12]
  with_unfolding_all rfl

set_option maxRecDepth 16000 in
theorem reachD14 : V4.reach_from GD 0 14 = [23, 3, 4, 24, 5, 7, 8, 6, 21, 22, 15, 16, 1, 13, 17, 18, 2, 11, 19, 20, 25, 0, 9, 12, 14, 10] := by
  rw [show V4.reach_from GD 0 14 = V4.reach_step GD (V4.reach_from GD 0 13) from rfl,
    reachD13]
  with_unfolding_all rfl

set_option maxRecDepth 16000 in
theorem reachD15 : V4.reach_from GD 0 15 = [24, 25, 7, 9, 5, 8, 10, 0, 6, 15, 19, 21, 23, 1, 3, 13, 14, 17, 2, 20, 11, 12, 16, 22, 4, 18] := by
  rw [show V4.reach_from GD 0 15 = V4.reach_step GD (V4.reach_from GD 0 14) from rfl,
    reachD14]
  with_unfolding_all rfl

set_option maxRecDepth 16000 in
theorem reachD16 : V4.reach_from GD 0 16 = [23, 3, 4, 24, 5, 7, 8, 6, 21, 22, 15, 16, 1, 13, 17, 18, 2, 11, 19, 20, 25, 0, 9, 12, 14, 10] := by
  rw [show V4.reach_from GD 0 16 = V4.reach_step GD (V4.reach_from GD 0 15) from rfl,
    reachD15]
  with_unfolding_all rfl

set_option maxRecDepth 16000 in
theorem reachD17 : V4.reach_from GD 0 17 = [24, 25, 7, 9, 5, 8, 10, 0, 6, 15, 19, 21, 23, 1, 3, 13, 14, 17, 2, 20, 11, 12, 16, 22, 4, 18] := by
  rw [show V4.reach_from GD 0 17 = V4.reach_step GD (V4.reach_from GD 0 16) from rfl,
    reachD16]
  with_unfolding_all rfl

set_option maxRecDepth 16000 in
theorem reachD18 : V4.reach_from GD 0 18 = [23, 3, 4, 24, 5, 7, 8, 6, 21, 22, 15, 16, 1, 13, 17, 18, 2, 11, 19, 20, 25, 0, 9, 12, 14, 10] := by
  rw [show V4.reach_from GD 0 18 = V4.reach_step GD (V4.reach_from GD 0 17) from rfl,
    reachD17]
  with_unfolding_all rfl

set_option maxRecDepth 16000 in
theorem reachD19 : V4.reach_from GD 0 19 = [24, 25, 7, 9, 5, 8, 10, 0, 6, 15, 19, 21, 23, 1, 3, 13, 14, 17, 2, 20, 11, 12, 16, 22, 4, 18] := by
  rw [show V4.reach_from GD 0 19 = V4.reach_step GD (V4.reach_from GD 0 18) from rfl,
    reachD18]
  with_unfolding_all rfl

set_option maxRecDepth 16000 in
theorem reachD20 : V4.reach_from GD 0 20 = [23, 3, 4, 24, 5, 7, 8, 6, 21, 22, 15, 16, 1, 13, 17, 18, 2, 11, 19, 20, 25, 0, 9, 12, 14, 10] := by
  rw [show V4.reach_from GD 0 20 = V4.reach_step GD (V4.reach_from GD 0 19) from rfl,
    reachD19]
  with_unfolding_all rfl

set_option maxRecDepth 16000 in
theorem reachD21 : V4.reach_from GD 0 21 = [24, 25, 7, 9, 5, 8, 10, 0, 6, 15, 19, 21, 23, 1, 3, 13, 14, 17, 2, 20, 11, 12, 16, 22, 4, 18] := by
  rw [show V4.reach_from GD 0 21 = V4.reach_step GD (V4.reach_from GD 0 20) from rfl,
    reachD20]
  with_unfolding_all rfl

set_option maxRecDepth 16000 in
theorem reachD22 : V4.reach_from GD 0 22 = [23, 3, 4, 24, 5, 7, 8, 6, 21, 22, 15, 16, 1, 13, 17, 18, 2, 11, 19, 20, 25, 0, 9, 12, 14, 10] := by
  rw [show V4.reach_from GD 0 22 = V4.reach_step GD (V4.reach_from GD 0 21) from rfl,
    reachD21]
  with_unfolding_all rfl

set_option maxRecDepth 16000 in
theorem reachD23 : V4.reach_from GD 0 23 = [24, 25, 7, 9, 5, 8, 10, 0, 6, 15, 19, 21, 23, 1, 3, 13, 14, 17, 2, 20, 11, 12, 16, 22, 4, 18] := by
  rw [show V4.reach_from GD 0 23 = V4.reach_step GD (V4.reach_from GD 0 22) from rfl,
    reachD22]
  with_unfolding_all rfl

set_option maxRecDepth 16000 in
theorem reachD24 : V4.reach_from GD 0 24 = [23, 3, 4, 24, 5, 7, 8, 6, 21, 22, 15, 16, 1, 13, 17, 18, 2, 11, 19, 20, 25, 0, 9, 12, 14, 10] := by
  rw [show V4.reach_from GD 0 24 = V4.reach_step GD (V4.reach_from GD 0 23) from rfl,
    reachD23]
  with_unfolding_all rfl

set_option maxRecDepth 16000 in
theorem reachD25 : V4.reach_from GD 0 25 = [24, 25, 7, 9, 5, 8, 10, 0, 6, 15, 19, 21, 23, 1, 3, 13, 14, 17, 2, 20, 11, 12, 16, 22, 4, 18] := by
  rw [show V4.reach_from GD 0 25 = V4.reach_step GD (V4.reach_from GD 0 24) from rfl,
    reachD24]
  with_unfolding_all rfl

set_option maxRecDepth 16000 in
theorem reachD26 : V4.reach_from GD 0 26 = [23, 3, 4, 24, 5, 7, 8, 6, 21, 22, 15, 16, 1, 13, 17, 18, 2, 11, 19, 20, 25, 0, 9, 12, 14, 10] := by
  rw [show V4.reach_from GD 0 26 = V4.reach_step GD (V4.reach_from GD 0 25) from rfl,
    reachD25]
  with_unfolding_all rfl

set_option maxRecDepth 16000 in
theorem allreachD : V4.all_reachable_from_main (with_conns (pre_rooms ({} : V4.Config)) TD26) = true := by
  unfold V4.all_reachable_from_main
  rw [graphD_eq, mainhallD_eq, lenD_eq, reachD26]
  with_unfolding_all rfl

set_option maxRecDepth 16000 in
theorem vcX4 : List.foldl (vc_outer 22) (pre_rooms connectivity_cex_config) [0, 1, 2, 3] =
    with_conns (pre_rooms connectivity_cex_config) TX4 := by
  with_unfolding_all rfl

set_option maxRecDepth 16000 in
theorem vcX8 : List.foldl (vc_outer 22) (with_conns (pre_rooms connectivity_cex_config) TX4) [4, 5, 6, 7] =
    with_conns (pre_rooms connectivity_cex_config) TX8 := by
  with_unfolding_all rfl

set_option maxRecDepth 16000 in
theorem vcX12 : List.foldl (vc_outer 22) (with_conns (pre_rooms connectivity_cex_config) TX8) [8, 9, 10, 11] =
    with_conns (pre_rooms connectivity_cex_config) TX12 := by
  with_unfolding_all rfl

set_option maxRecDepth 16000 in
theorem vcX16 : List.foldl (vc_outer 22) (with_conns (pre_rooms connectivity_cex_config) TX12) [12, 13, 14, 15] =
    with_conns (pre_rooms connectivity_cex_config) TX16 := by
  with_unfolding_all rfl

set_option maxRecDepth 16000 in
theorem vcX20 : List.foldl (vc_outer 22) (with_conns (pre_rooms connectivity_cex_config) TX16) [16, 17, 18, 19] =
    with_conns (pre_rooms connectivity_cex_config) TX20 := by
  with_unfolding_all rfl

set_option maxRecDepth 16000 in
theorem vcX22 : List.foldl (vc_outer 22) (with_conns (pre_rooms connectivity_cex_config) TX20) [20, 21] =
    with_conns (pre_rooms connectivity_cex_config) TX22 := by
  with_unfolding_all rfl

set_option maxRecDepth 16000 in
theorem layoutX_eq : V4.generate_layout connectivity_cex_config = with_conns (pre_rooms connectivity_cex_config) TX22 := by
  have h0 : V4.generate_layout connectivity_cex_config =
      V4.create_vertical_connections (pre_rooms connectivity_cex_config) := rfl
  have hl : (pre_rooms connectivity_cex_config).length = 22 := by with_unfolding_all rfl
  have hr : List.range 22 = [0, 1, 2, 3] ++ [4, 5, 6, 7] ++ [8, 9, 10, 11] ++ [12, 13, 14, 15] ++ [16, 17, 18, 19] ++ [20, 21] := rfl
  rw [h0, cvc_eq, hl, hr, List.foldl_append, List.foldl_append, List.foldl_append, List.foldl_append, List.foldl_append, vcX4, vcX8, vcX12, vcX16, vcX20, vcX22]

set_option maxRecDepth 16000 in
theorem graphX_eq : V4.room_graph (with_conns (pre_rooms connectivity_cex_config) TX22) = GX := by
  with_unfolding_all rfl

set_option maxRecDepth 16000 in
theorem mainhallX_eq : V4.main_hall_id (with_conns (pre_rooms connectivity_cex_config) TX22) = 0 := by
  with_unfolding_all rfl

set_option maxRecDepth 16000 in
theorem lenX_eq : (with_conns (pre_rooms connectivity_cex_config) TX22).length = 22 := by
  with_unfolding_all rfl

theorem reachX0 : V4.reach_from GX 0 0 = [0] := rfl

set_option maxRecDepth 16000 in
theorem reachX1 : V4.reach_from GX 0 1 = [0, 1, 2, 3, 4] := by
  rw [show V4.reach_from GX 0 1 = V4.reach_step GX (V4.reach_from GX 0 0) from rfl,
    reachX0]
  with_unfolding_all rfl

set_option maxRecDepth 16000 in
theorem reachX2 : V4.reach_from GX 0 2 = [1, 2, 3, 4, 5, 6, 0] := by
  rw [show V4.reach_from GX 0 2 = V4.reach_step GX (V4.reach_from GX 0 1) from rfl,
    reachX1]
  with_unfolding_all rfl

set_option maxRecDepth 16000 in
theorem reachX3 : V4.reach_from GX 0 3 = [5, 6, 0, 1, 2, 3, 4] := by
  rw [show V4.reach_from GX 0 3 = V4.reach_step GX (V4.reach_from GX 0 2) from rfl,
    reachX2]
  with_unfolding_all rfl

set_option maxRecDepth 16000 in
theorem reachX4 : V4.reach_from GX 0 4 = [1, 2, 3, 4, 5, 6, 0] := by
  rw [show V4.reach_from GX 0 4 = V4.reach_step GX (V4.reach_from GX 0 3) from rfl,
    reachX3]
  with_unfolding_all rfl

set_option maxRecDepth 16000 in
theorem reachX5 : V4.reach_from GX 0 5 = [5, 6, 0, 1, 2, 3, 4] := by
  rw [show V4.reach_from GX 0 5 = V4.reach_step GX (V4.reach_from GX 0 4) from rfl,
    reachX4]
  with_unfolding_all rfl

set_option maxRecDepth 16000 in
theorem reachX6 : V4.reach_from GX 0 6 = [1, 2, 3, 4, 5, 6, 0] := by
  rw [show V4.reach_from GX 0 6 = V4.reach_step GX (V4.reach_from GX 0 5) from rfl,
    reachX5]
  with_unfolding_all rfl

set_option maxRecDepth 16000 in
theorem reachX7 : V4.reach_from GX 0 7 = [5, 6, 0, 1, 2, 3, 4] := by
  rw [show V4.reach_from GX 0 7 = V4.reach_step GX (V4.reach_from GX 0 6) from rfl,
    reachX6]
  with_unfolding_all rfl

set_option maxRecDepth 16000 in
theorem reachX8 : V4.reach_from GX 0 8 = [1, 2, 3, 4, 5, 6, 0] := by
  rw [show V4.reach_from GX 0 8 = V4.reach_step GX (V4.reach_from GX 0 7) from rfl,
    reachX7]
  with_unfolding_all rfl

set_option maxRecDepth 16000 in
theorem reachX9 : V4.reach_from GX 0 9 = [5, 6, 0, 1, 2, 3, 4] := by
  rw [show V4.reach_from GX 0 9 = V4.reach_step GX (V4.reach_from GX 0 8) from rfl,
    reachX8]
  with_unfolding_all rfl

set_option maxRecDepth 16000 in
theorem reachX10 : V4.reach_from GX 0 10 = [1, 2, 3, 4, 5, 6, 0] := by
  rw [show V4.reach_from GX 0 10 = V4.reach_step GX (V4.reach_from GX 0 9) from rfl,
    reachX9]
  with_unfolding_all rfl

set_option maxRecDepth 16000 in
theorem reachX11 : V4.reach_from GX 0 11 = [5, 6, 0, 1, 2, 3, 4] := by
  rw [show V4.reach_from GX 0 11 = V4.reach_step GX (V4.reach_from GX 0 10) from rfl,
    reachX10]
  with_unfolding_all rfl

set_option maxRecDepth 16000 in
theorem reachX12 : V4.reach_from GX 0 12 = [1, 2, 3, 4, 5, 6, 0] := by
  rw [show V4.reach_from GX 0 12 = V4.reach_step GX (V4.reach_from GX 0 11) from rfl,
    reachX11]
  with_unfolding_all rfl

set_option maxRecDepth 16000 in
theorem reachX13 : V4.reach_from GX 0 13 = [5, 6, 0, 1, 2, 3, 4] := by
  rw [show V4.reach_from GX 0 13 = V4.reach_step GX (V4.reach_from GX 0 12) from rfl,
    reachX12]
  with_unfolding_all rfl

set_option maxRecDepth 16000 in
theorem reachX14 : V4.reach_from GX 0 14 = [1, 2, 3, 4, 5, 6, 0] := by
  rw [show V4.reach_from GX 0 14 = V4.reach_step GX (V4.reach_from GX 0 13) from rfl,
    reachX13]
  with_unfolding_all rfl

set_option maxRecDepth 16000 in
theorem reachX15 : V4.reach_from GX 0 15 = [5, 6, 0, 1, 2, 3, 4] := by
  rw [show V4.reach_from GX 0 15 = V4.reach_step GX (V4.reach_from GX 0 14) from rfl,
    reachX14]
  with_unfolding_all rfl

set_option maxRecDepth 16000 in
theorem reachX16 : V4.reach_from GX 0 16 = [1, 2, 3, 4, 5, 6, 0] := by
  rw [show V4.reach_from GX 0 16 = V4.reach_step GX (V4.reach_from GX 0 15) from rfl,
    reachX15]
  with_unfolding_all rfl

set_option maxRecDepth 16000 in
theorem reachX17 : V4.reach_from GX 0 17 = [5, 6, 0, 1, 2, 3, 4] := by
  rw [show V4.reach_from GX 0 17 = V4.reach_step GX (V4.reach_from GX 0 16) from rfl,
    reachX16]
  with_unfolding_all rfl

set_option maxRecDepth 16000 in
theorem reachX18 : V4.reach_from GX 0 18 = [1, 2, 3, 4, 5, 6, 0] := by
  rw [show V4.reach_from GX 0 18 = V4.reach_step GX (V4.reach_from GX 0 17) from rfl,
    reachX17]
  with_unfolding_all rfl

set_option maxRecDepth 16000 in
theorem reachX19 : V4.reach_from GX 0 19 = [5, 6, 0, 1, 2, 3, 4] := by
  rw [show V4.reach_from GX 0 19 = V4.reach_step GX (V4.reach_from GX 0 18) from rfl,
    reachX18]
  with_unfolding_all rfl

set_option maxRecDepth 16000 in
theorem reachX20 : V4.reach_from GX 0 20 = [1, 2, 3, 4, 5, 6, 0] := by
  rw [show V4.reach_from GX 0 20 = V4.reach_step GX (V4.reach_from GX 0 19) from rfl,
    reachX19]
  with_unfolding_all rfl

set_option maxRecDepth 16000 in
theorem reachX21 : V4.reach_from GX 0 21 = [5, 6, 0, 1, 2, 3, 4] := by
  rw [show V4.reach_from GX 0 21 = V4.reach_step GX (V4.reach_from GX 0 20) from rfl,
    reachX20]
  with_unfolding_all rfl

set_option maxRecDepth 16000 in
theorem reachX22 : V4.reach_from GX 0 22 = [1, 2, 3, 4, 5, 6, 0] := by
  rw [show V4.reach_from GX 0 22 = V4.reach_step GX (V4.reach_from GX 0 21) from rfl,
    reachX21]
  with_unfolding_all rfl

set_option maxRecDepth 16000 in
theorem allreachX : V4.all_reachable_from_main (with_conns (pre_rooms connectivity_cex_config) TX22) = false := by
  unfold V4.all_reachable_from_main
  rw [graphX_eq, mainhallX_eq, lenX_eq, reachX22]
  with_unfolding_all rfl

/-! ## Claim theorems -/

/-- C1: for every config and every explicitly supplied seed, two independent
runs produce the identical ordered sequence of topology choices (corridor
pattern, center-platform flag, column pattern, ramp style, balcony
configuration, side-room count, entrance configuration), and, in the
room-graph variant, an identical room set — same ids, kinds, positions,
sizes, levels and connection lists, since `r1 = r2` is equality of the full
`Room` records. -/
theorem C1_determinism (cfg7 : V7.Config) (cfg4 : V4.Config)
    (c1 c2 : V7.LayoutChoices) (r1 r2 : List V4.Room)
    (h1 : c1 = V7.layout_init cfg7) (h2 : c2 = V7.layout_init cfg7)
    (h3 : r1 = V4.generate_layout cfg4) (h4 : r2 = V4.generate_layout cfg4) :
    c1.corridor_config = c2.corridor_config ∧
    c1.has_center_platform = c2.has_center_platform ∧
    c1.column_pattern = c2.column_pattern ∧
    c1.ramp_style = c2.ramp_style ∧
    c1.balcony_config = c2.balcony_config ∧
    c1.num_side_rooms = c2.num_side_rooms ∧
    c1.entrance_config = c2.entrance_config ∧
    r1 = r2 := by
  subst h1
  subst h2
  subst h3
  subst h4
  exact ⟨rfl, rfl, rfl, rfl, rfl, rfl, rfl, rfl⟩

/-- Witness for C1 at the default v7 and v4 configs. -/
theorem C1_determinism_witness :
    (V7.layout_init {}).corridor_config = (V7.layout_init {}).corridor_config ∧
    (V7.layout_init {}).has_center_platform = (V7.layout_init {}).has_center_platform ∧
    (V7.layout_init {}).column_pattern = (V7.layout_init {}).column_pattern ∧
    (V7.layout_init {}).ramp_style = (V7.layout_init {}).ramp_style ∧
    (V7.layout_init {}).balcony_config = (V7.layout_init {}).balcony_config ∧
    (V7.layout_init {}).num_side_rooms = (V7.layout_init {}).num_side_rooms ∧
    (V7.layout_init {}).entrance_config = (V7.layout_init {}).entrance_config ∧
    V4.generate_layout {} = V4.generate_layout {} :=
  C1_determinism {} {} (V7.layout_init {}) (V7.layout_init {})
    (V4.generate_layout {}) (V4.generate_layout {}) rfl rfl rfl rfl

/-- C2 as written is false on the code: `generate_base` rejects nothing.
With `num_levels = 0` — outside `[2, 6]` — it silently clamps the level
count to 2 and proceeds to emit exterior geometry (a 12-face shell), instead
of failing validation before any geometry is produced. -/
theorem C2_counterexample :
    (V4.generate_base_config "pyramid" (some 42) 0 {} 0).num_levels = 2 ∧
    (V4.build_exterior (V4.generate_base_config "pyramid" (some 42) 0 {} 0)).faces.length = 12 := by
  constructor
  · rfl
  · with_unfolding_all rfl

/-- C2 amended: the generation entry point performs no config validation and
never rejects: the level count is silently clamped into `[2, 6]`, and
override values — including taper ratios `≥ 0.5` — are accepted unchanged,
after which geometry generation proceeds. -/
theorem C2_amended_no_validation (style : String) (seed : Option Int)
    (num_levels : Int) (kw : V4.Overrides) (now : Int) :
    ((V4.generate_base_config style seed num_levels kw now).num_levels
        = (max 2 (min 6 num_levels)).toNat ∧
      2 ≤ (V4.generate_base_config style seed num_levels kw now).num_levels ∧
      (V4.generate_base_config style seed num_levels kw now).num_levels ≤ 6) ∧
    (∀ t : ℚ, kw.wall_taper = some t →
      (V4.generate_base_config style seed num_levels kw now).wall_taper = t) := by
  obtain ⟨bw, bd, wt⟩ := kw
  have hnum : (V4.generate_base_config style seed num_levels ⟨bw, bd, wt⟩ now).num_levels
      = (max 2 (min 6 num_levels)).toNat := by
    unfold V4.generate_base_config V4.apply_overrides
    cases bw <;> cases bd <;> cases wt <;> rfl
  refine ⟨⟨hnum, ?_, ?_⟩, ?_⟩
  · rw [hnum]; omega
  · rw [hnum]; omega
  · intro t ht
    have ht2 : wt = some t := ht
    subst ht2
    unfold V4.generate_base_config V4.apply_overrides
    cases bw <;> cases bd <;> rfl

/-- Witness for C2's amended statement: `num_levels = 0` is clamped to 2 and
a `wall_taper` override of `0.6 ≥ 0.5` is accepted unchanged. -/
theorem C2_amended_witness :
    ((V4.generate_base_config "pyramid" (some 42) 0 { wall_taper := some 0.6 } 0).num_levels
        = (max 2 (min 6 (0 : Int))).toNat ∧
      2 ≤ (V4.generate_base_config "pyramid" (some 42) 0 { wall_taper := some 0.6 } 0).num_levels ∧
      (V4.generate_base_config "pyramid" (some 42) 0 { wall_taper := some 0.6 } 0).num_levels ≤ 6) ∧
    (V4.generate_base_config "pyramid" (some 42) 0 { wall_taper := some 0.6 } 0).wall_taper = 0.6 :=
  ⟨(C2_amended_no_validation "pyramid" (some 42) 0 { wall_taper := some 0.6 } 0).1,
   (C2_amended_no_validation "pyramid" (some 42) 0 { wall_taper := some 0.6 } 0).2 0.6 rfl⟩

/-- C3 as written is false on the code: `connectivity_cex_config` satisfies
every §7 validity constraint (positive dimensions, taper `0.25 < 0.5`, level
count 4), yet after per-level room creation and the vertical-connection pass
the breadth-first check does not reach every room from the ground-floor main
hall: the oversized main hall places every ground-floor room more than 8
horizontal units from every level-1 room, so the pass adds no edge between
level 0 and level 1 and the room graph is disconnected. -/
theorem C3_counterexample :
    V4.spec_valid_config connectivity_cex_config ∧
    V4.all_reachable_from_main (V4.generate_layout connectivity_cex_config) = false := by
  constructor
  · exact of_decide_eq_true (by with_unfolding_all rfl)
  · rw [layoutX_eq]
    exact allreachX

/-- C3 amended: connectivity is not guaranteed for every valid config; for
the default configuration every generated room is reachable from the
ground-floor main hall via the connections relation. -/
theorem C3_amended_default_connected :
    V4.all_reachable_from_main (V4.generate_layout {}) = true := by
  rw [layoutD_eq]
  exact allreachD

/-- C4: for every valid config and heights `z1 < z2` in `[0, base_height]`,
the interior width at `z1` — exterior footprint minus `2 * wall_thickness`
minus `2 * taper(z1)`, with `taper(z) = base_height * wall_taper *
(z / base_height)` — is at least the interior width at `z2`: the envelope is
monotonically non-increasing in `z`. -/
theorem C4_envelope_monotone (cfg : V4.Config) (z1 z2 : ℚ)
    (hbh : 0 < cfg.base_height) (ht : 0 ≤ cfg.wall_taper)
    (hz1 : 0 ≤ z1) (h12 : z1 < z2) (hz2 : z2 ≤ cfg.base_height) :
    V4.available_width cfg z2 ≤ V4.available_width cfg z1 := by
  have hbh0 : cfg.base_height ≠ 0 := ne_of_gt hbh
  have e : ∀ z : ℚ, V4.level_taper cfg z = cfg.wall_taper * z := by
    intro z
    unfold V4.level_taper
    field_simp
    ring
  unfold V4.available_width
  rw [e z1, e z2]
  nlinarith

/-- Witness for C4 at the default config with `z1 = 0`, `z2 = 1`. -/
theorem C4_envelope_monotone_witness :
    (0 < ({} : V4.Config).base_height ∧ 0 ≤ ({} : V4.Config).wall_taper ∧
      (0 : ℚ) ≤ 0 ∧ (0 : ℚ) < 1 ∧ (1 : ℚ) ≤ ({} : V4.Config).base_height) ∧
    V4.available_width {} 1 ≤ V4.available_width {} 0 :=
  ⟨⟨of_decide_eq_true (by with_unfolding_all rfl),
    of_decide_eq_true (by with_unfolding_all rfl),
    of_decide_eq_true (by with_unfolding_all rfl),
    of_decide_eq_true (by with_unfolding_all rfl),
    of_decide_eq_true (by with_unfolding_all rfl)⟩,
   C4_envelope_monotone {} 0 1
    (of_decide_eq_true (by with_unfolding_all rfl))
    (of_decide_eq_true (by with_unfolding_all rfl))
    (of_decide_eq_true (by with_unfolding_all rfl))
    (of_decide_eq_true (by with_unfolding_all rfl))
    (of_decide_eq_true (by with_unfolding_all rfl))⟩

/-- C5: for every inter-level ramp placement, the vertical rise is exactly
one `level_height` and the horizontal run equals
`rise / tan(config.ramp_angle)`; in particular a rise of 10 at a 30-degree
ramp angle yields a run of `10 / tan(30°) = 10·√3 ≈ 17.32`, and the emitted
run is this function of the config's ramp angle. -/
theorem C5_ramp_geometry :
    (∀ (cfg : V4.Config) (level : Nat),
      (V4.ramp_placement cfg level).z2 - (V4.ramp_placement cfg level).z1
          = (cfg.level_height : ℝ) ∧
      V4.ramp_horizontal_run (V4.ramp_placement cfg level) = |V4.ramp_run cfg|) ∧
    V4.ramp_run ramp_example_config = 10 * Real.sqrt 3 ∧
    17.32 ≤ V4.ramp_run ramp_example_config ∧
    V4.ramp_run ramp_example_config < 17.33 := by
  have key : ∀ (cfg : V4.Config) (level : Nat),
      (V4.ramp_placement cfg level).z2 - (V4.ramp_placement cfg level).z1
          = (cfg.level_height : ℝ) ∧
      V4.ramp_horizontal_run (V4.ramp_placement cfg level) = |V4.ramp_run cfg| := by
    intro cfg level
    have h4 : level % 4 = 0 ∨ level % 4 = 1 ∨ level % 4 = 2 ∨ level % 4 = 3 := by omega
    rcases h4 with h | h | h | h <;>
      refine ⟨?_, ?_⟩ <;>
      simp only [V4.ramp_placement, V4.ramp_horizontal_run, h] <;>
      norm_num <;>
      first
        | exact Real.sqrt_sq_eq_abs _
        | (rw [show (V4.ramp_run cfg / 2 - -V4.ramp_run cfg / 2 : ℝ) ^ 2
                = V4.ramp_run cfg ^ 2 from by ring]
           exact Real.sqrt_sq_eq_abs _)
        | (rw [show (-V4.ramp_run cfg / 2 - V4.ramp_run cfg / 2 : ℝ) ^ 2
                = (-V4.ramp_run cfg) ^ 2 from by ring, Real.sqrt_sq_eq_abs, abs_neg])
  have conc : V4.ramp_run ramp_example_config = 10 * Real.sqrt 3 := by
    unfold V4.ramp_run ramp_example_config
    have h6 : ((30 : ℚ) : ℝ) * Real.pi / 180 = Real.pi / 6 := by
      push_cast
      ring
    rw [h6, Real.tan_pi_div_six]
    have h3 : Real.sqrt 3 ≠ 0 := ne_of_gt (Real.sqrt_pos.mpr (by norm_num))
    push_cast
    field_simp
  have h3 : Real.sqrt 3 ^ 2 = 3 := Real.sq_sqrt (by norm_num)
  have h3n : 0 ≤ Real.sqrt 3 := Real.sqrt_nonneg 3
  refine ⟨key, conc, ?_, ?_⟩
  · rw [conc]
    nlinarith
  · rw [conc]
    nlinarith

/-- C6: every solid emitted by a single call to the box builder, the
tapered-box builder (either winding), the ramp builder with horizontal
length above the epsilon, or the column builder is a closed 2-manifold over
its own vertices: every edge of the emitted face set is shared by exactly
two faces. -/
theorem C6_manifold_closure :
    (∀ x y z w d h : ℝ, closed_manifold (V7.add_box {} x y z w d h).faces = true) ∧
    (∀ bw bd tw td hg bz : ℝ, ∀ inv : Bool,
      closed_manifold (V4.add_tapered_box_faces {} bw bd tw td hg bz inv).faces = true) ∧
    (∀ x1 y1 z1 x2 y2 z2 w eh : ℝ,
      ¬ Real.sqrt ((x2 - x1) * (x2 - x1) + (y2 - y1) * (y2 - y1)) < 0.01 →
      closed_manifold (V7.add_ramp {} x1 y1 z1 x2 y2 z2 w eh).faces = true) ∧
    (∀ x y zb zt w : ℝ, closed_manifold (V7.add_column {} x y zb zt w).faces = true) := by
  refine ⟨fun x y z w d h => ?_, fun bw bd tw td hg bz inv => ?_,
    fun x1 y1 z1 x2 y2 z2 w eh hh => ?_, fun x y zb zt w => ?_⟩
  · with_unfolding_all rfl
  · cases inv <;>
      simp only [V4.add_tapered_box_faces, Bool.false_eq_true, if_false, if_true] <;>
      with_unfolding_all rfl
  · have hf : (V7.add_ramp {} x1 y1 z1 x2 y2 z2 w eh).faces =
        [[0, 1, 2, 3], [7, 6, 5, 4], [0, 3, 7, 4], [1, 5, 6, 2], [0, 4, 5, 1], [2, 6, 7, 3],
         [11, 10, 9, 8], [12, 13, 14, 15], [8, 9, 13, 12], [9, 10, 14, 13], [10, 11, 15, 14],
         [11, 8, 12, 15],
         [19, 18, 17, 16], [20, 21, 22, 23], [16, 17, 21, 20], [17, 18, 22, 21],
         [18, 19, 23, 22], [19, 16, 20, 23]] := by
      simp only [V7.add_ramp]
      rw [if_neg hh]
      with_unfolding_all rfl
    rw [hf]
    with_unfolding_all rfl
  · have hf : (V7.add_column {} x y zb zt w).faces =
        [[3, 2, 1, 0], [4, 5, 6, 7], [0, 1, 5, 4], [1, 2, 6, 5], [2, 3, 7, 6], [3, 0, 4, 7], [11, 10, 9, 8], [12, 13, 14, 15], [8, 9, 13, 12], [9, 10, 14, 13], [10, 11, 15, 14], [11, 8, 12, 15], [19, 18, 17, 16], [20, 21, 22, 23], [16, 17, 21, 20], [17, 18, 22, 21], [18, 19, 23, 22], [19, 16, 20, 23]] := by
      with_unfolding_all rfl
    rw [hf]
    with_unfolding_all rfl

/-- Witness for C6's ramp hypothesis: endpoints one unit apart are above the
epsilon and the emitted ramp is manifold. -/
theorem C6_manifold_closure_witness :
    (¬ Real.sqrt (((1:ℝ) - 0) * ((1:ℝ) - 0) + ((0:ℝ) - 0) * ((0:ℝ) - 0)) < 0.01) ∧
    closed_manifold (V7.add_ramp {} 0 0 0 1 0 0 5 0.5).faces = true := by
  have h : ¬ Real.sqrt (((1:ℝ) - 0) * ((1:ℝ) - 0) + ((0:ℝ) - 0) * ((0:ℝ) - 0)) < 0.01 := by
    rw [show ((1:ℝ) - 0) * ((1:ℝ) - 0) + ((0:ℝ) - 0) * ((0:ℝ) - 0) = 1 by ring, Real.sqrt_one]
    norm_num
  exact ⟨h, C6_manifold_closure.2.2.1 0 0 0 1 0 0 5 0.5 h⟩

/-- C7: the exterior builder computes `taper_amount = base_height *
wall_taper` and `top_width = base_width - 2 * taper_amount`; for base_width
64, base_height 48, wall_taper 0.3 this gives `taper_amount = 14.4` and
`top_width = 35.2`. -/
theorem C7_taper_arithmetic :
    (∀ cfg : V4.Config,
      V4.exterior_taper_amount cfg = cfg.base_height * cfg.wall_taper ∧
      V4.exterior_top_width cfg = cfg.base_width - 2 * V4.exterior_taper_amount cfg) ∧
    V4.exterior_taper_amount taper_example_config = 14.4 ∧
    V4.exterior_top_width taper_example_config = 35.2 := by
  refine ⟨fun cfg => ⟨rfl, by unfold V4.exterior_top_width; ring⟩, ?_, ?_⟩
  · exact of_decide_eq_true (by with_unfolding_all rfl)
  · exact of_decide_eq_true (by with_unfolding_all rfl)

/-- C8: a ramp call whose endpoints' horizontal projection length is below
the `0.01` epsilon is a no-op in both mesh builders: zero vertices and zero
faces are emitted, and the accumulator is returned exactly as it was. -/
theorem C8_degenerate_ramp_noop (m : Mesh) (x1 y1 z1 x2 y2 z2 w t eh : ℝ)
    (h : Real.sqrt ((x2 - x1) * (x2 - x1) + (y2 - y1) * (y2 - y1)) < 0.01) :
    V4.add_ramp m x1 y1 z1 x2 y2 z2 w t = m ∧ V7.add_ramp m x1 y1 z1 x2 y2 z2 w eh = m := by
  constructor
  · simp only [V4.add_ramp]
    rw [if_pos h]
  · simp only [V7.add_ramp]
    rw [if_pos h]

/-- Witness for C8: `ramp(0,0,0, 0,0,0, width=5)` leaves the empty
accumulator unchanged. -/
theorem C8_degenerate_ramp_noop_witness :
    Real.sqrt (((0:ℝ) - 0) * ((0:ℝ) - 0) + ((0:ℝ) - 0) * ((0:ℝ) - 0)) < 0.01 ∧
    V4.add_ramp {} 0 0 0 0 0 0 5 0.5 = {} ∧
    V7.add_ramp {} 0 0 0 0 0 0 5 0.5 = {} := by
  have h : Real.sqrt (((0:ℝ) - 0) * ((0:ℝ) - 0) + ((0:ℝ) - 0) * ((0:ℝ) - 0)) < 0.01 := by
    rw [show ((0:ℝ) - 0) * ((0:ℝ) - 0) + ((0:ℝ) - 0) * ((0:ℝ) - 0) = 0 by ring, Real.sqrt_zero]
    norm_num
  exact ⟨h, (C8_degenerate_ramp_noop {} 0 0 0 0 0 0 5 0.5 0.5 h).1,
    (C8_degenerate_ramp_noop {} 0 0 0 0 0 0 5 0.5 0.5 h).2⟩

/-- C10: for every style string whose lower-cased form is not one of
"pyramid", "stepped", "tower", `generate_base` raises no error: it silently
falls back to the pyramid style, producing exactly the config it would have
produced for "pyramid" with the remaining arguments unchanged. -/
theorem C10_unknown_style_fallback (s : String) (seed : Option Int)
    (num_levels : Int) (kw : V4.Overrides) (now : Int)
    (h : s.toLower ∉ ["pyramid", "stepped", "tower"]) :
    V4.generate_base_config s seed num_levels kw now =
      V4.generate_base_config "pyramid" seed num_levels kw now := by
  simp only [List.mem_cons, List.not_mem_nil, or_false, not_or] at h
  have hs : V4.style_of_string s = V4.BaseStyle.PYRAMID := by
    simp only [V4.style_of_string]
    rw [if_neg h.1, if_neg h.2.1, if_neg h.2.2]
  have hp : V4.style_of_string "pyramid" = V4.BaseStyle.PYRAMID := by
    with_unfolding_all rfl
  unfold V4.generate_base_config
  rw [hs, hp]

/-- Witness for C10 at the unknown style string "fortress". -/
theorem C10_unknown_style_fallback_witness :
    "fortress".toLower ∉ ["pyramid", "stepped", "tower"] ∧
    V4.generate_base_config "fortress" (some 7) 4 {} 0 =
      V4.generate_base_config "pyramid" (some 7) 4 {} 0 :=
  ⟨of_decide_eq_true (by with_unfolding_all rfl),
   C10_unknown_style_fallback "fortress" (some 7) 4 {} 0
     (of_decide_eq_true (by with_unfolding_all rfl))⟩

theorem mem_map_add (n a : Nat) (l : List Nat) : n + a ∈ l.map (n + ·) ↔ a ∈ l := by
  simp [List.mem_map]

theorem graph_symm_shift {g : List (Nat × List Nat)} (n : Nat) (h : graph_symm g) :
    graph_symm (shift_graph n g) := by
  intro p hp q hq
  rcases List.mem_map.mp hp with ⟨p0, hp0, rfl⟩
  rcases List.mem_map.mp hq with ⟨q0, hq0, rfl⟩
  simpa [mem_map_add] using h p0 hp0 q0 hq0

theorem graph_bounded_shift {g : List (Nat × List Nat)} {lo hi : Nat} (n : Nat)
    (h : graph_bounded lo hi g) : graph_bounded (n + lo) (n + hi) (shift_graph n g) := by
  intro p hp
  rcases List.mem_map.mp hp with ⟨p0, hp0, rfl⟩
  obtain ⟨⟨h1, h2⟩, h3⟩ := h p0 hp0
  refine ⟨⟨by omega, by omega⟩, ?_⟩
  intro c hc
  rcases List.mem_map.mp hc with ⟨c0, hc0, rfl⟩
  obtain ⟨h4, h5⟩ := h3 c0 hc0
  omega

theorem graph_nodup_shift {g : List (Nat × List Nat)} (n : Nat)
    (h : (g.map Prod.fst).Nodup) : ((shift_graph n g).map Prod.fst).Nodup := by
  have e : (shift_graph n g).map Prod.fst = (g.map Prod.fst).map (n + ·) := by
    simp [shift_graph, List.map_map]
  rw [e]
  exact h.map (fun a b hab => by omega)

theorem room_graph_length (rooms : List V4.Room) :
    (V4.room_graph rooms).length = rooms.length := by
  simp [V4.room_graph]

theorem shift_graph_length (n : Nat) (g : List (Nat × List Nat)) :
    (shift_graph n g).length = g.length := by
  simp [shift_graph]

theorem symm_conn_of_graph {rooms : List V4.Room} (h : graph_symm (V4.room_graph rooms)) :
    symm_conn rooms := by
  intro a ha b hb
  exact h (a.id, a.connections) (List.mem_map_of_mem _ ha)
    (b.id, b.connections) (List.mem_map_of_mem _ hb)

theorem block_props_of_shift {b0 b : List V4.Room} {n : Nat}
    (h : V4.room_graph b = shift_graph n (V4.room_graph b0))
    (h0 : block_props b0 0) : block_props b n := by
  obtain ⟨hs, hn, hb⟩ := h0
  have hlen : b.length = b0.length := by
    have := congrArg List.length h
    rwa [room_graph_length, shift_graph_length, room_graph_length] at this
  refine ⟨?_, ?_, ?_⟩
  · rw [h]
    exact graph_symm_shift n hs
  · rw [h]
    exact graph_nodup_shift n hn
  · rw [h, hlen]
    have := graph_bounded_shift n hb
    simpa using this

theorem middle_graph_shift (cfg : V4.Config) (z aw ad : ℚ) (lvl n : Nat) :
    V4.room_graph (V4.generate_middle_floor cfg z aw ad lvl n) =
      shift_graph n (V4.room_graph (V4.generate_middle_floor cfg z aw ad lvl 0)) := by
  simp only [V4.generate_middle_floor]
  split <;> rfl

theorem middle_block0_props (cfg : V4.Config) (z aw ad : ℚ) (lvl : Nat) :
    block_props (V4.generate_middle_floor cfg z aw ad lvl 0) 0 := by
  simp only [V4.generate_middle_floor]
  split <;> exact of_decide_eq_true (by with_unfolding_all rfl)

theorem middle_block_props (cfg : V4.Config) (z aw ad : ℚ) (lvl n : Nat) :
    block_props (V4.generate_middle_floor cfg z aw ad lvl n) n :=
  block_props_of_shift (middle_graph_shift cfg z aw ad lvl n) (middle_block0_props cfg z aw ad lvl)

theorem top_graph_shift (cfg : V4.Config) (z aw ad : ℚ) (lvl n : Nat) :
    V4.room_graph (V4.generate_top_floor cfg z aw ad lvl n) =
      shift_graph n (V4.room_graph (V4.generate_top_floor cfg z aw ad lvl 0)) := by
  simp only [V4.generate_top_floor]
  split <;> split <;> rfl

theorem top_block0_props (cfg : V4.Config) (z aw ad : ℚ) (lvl : Nat) :
    block_props (V4.generate_top_floor cfg z aw ad lvl 0) 0 := by
  simp only [V4.generate_top_floor]
  split <;> split <;> exact of_decide_eq_true (by with_unfolding_all rfl)

theorem top_block_props (cfg : V4.Config) (z aw ad : ℚ) (lvl n : Nat) :
    block_props (V4.generate_top_floor cfg z aw ad lvl n) n :=
  block_props_of_shift (top_graph_shift cfg z aw ad lvl n) (top_block0_props cfg z aw ad lvl)

theorem ground_graph_shift (cfg : V4.Config) (z aw ad : ℚ) (lvl n : Nat) :
    V4.room_graph (V4.generate_ground_floor cfg z aw ad lvl n) =
      shift_graph n (V4.room_graph (V4.generate_ground_floor cfg z aw ad lvl 0)) := by
  simp only [V4.generate_ground_floor, V4.ground_corner_step, List.foldl_cons, List.foldl_nil,
    abs_neg]
  by_cases hg : |cfg.main_hall_w / 2 + 8| < aw / 2 - 4 ∧ |cfg.main_hall_w / 2 + 8| < ad / 2 - 4
  · by_cases hc : cfg.main_hall_w / 2 + 8 > 0
    · have hcn : ¬ (-(cfg.main_hall_w / 2 + 8) > 0) := by linarith
      simp only [if_pos hg, if_pos hc, if_neg hcn]
      rfl
    · by_cases hc2 : -(cfg.main_hall_w / 2 + 8) > 0
      · simp only [if_pos hg, if_neg hc, if_pos hc2]
        rfl
      · simp only [if_pos hg, if_neg hc, if_neg hc2]
        rfl
  · simp only [if_neg hg]
    rfl

theorem ground_block0_props (cfg : V4.Config) (z aw ad : ℚ) (lvl : Nat) :
    block_props (V4.generate_ground_floor cfg z aw ad lvl 0) 0 := by
  simp only [V4.generate_ground_floor, V4.ground_corner_step, List.foldl_cons, List.foldl_nil,
    abs_neg]
  by_cases hg : |cfg.main_hall_w / 2 + 8| < aw / 2 - 4 ∧ |cfg.main_hall_w / 2 + 8| < ad / 2 - 4
  · by_cases hc : cfg.main_hall_w / 2 + 8 > 0
    · have hcn : ¬ (-(cfg.main_hall_w / 2 + 8) > 0) := by linarith
      simp only [if_pos hg, if_pos hc, if_neg hcn]
      exact of_decide_eq_true (by with_unfolding_all rfl)
    · by_cases hc2 : -(cfg.main_hall_w / 2 + 8) > 0
      · simp only [if_pos hg, if_neg hc, if_pos hc2]
        exact of_decide_eq_true (by with_unfolding_all rfl)
      · simp only [if_pos hg, if_neg hc, if_neg hc2]
        exact of_decide_eq_true (by with_unfolding_all rfl)
  · simp only [if_neg hg]
    exact of_decide_eq_true (by with_unfolding_all rfl)

theorem ground_block_props (cfg : V4.Config) (z aw ad : ℚ) (lvl n : Nat) :
    block_props (V4.generate_ground_floor cfg z aw ad lvl n) n :=
  block_props_of_shift (ground_graph_shift cfg z aw ad lvl n) (ground_block0_props cfg z aw ad lvl)

theorem level_block_props (cfg : V4.Config) (level n : Nat) :
    block_props (V4.level_block cfg level n) n := by
  unfold V4.level_block
  split
  · exact ground_block_props ..
  · split
    · exact top_block_props ..
    · exact middle_block_props ..

theorem room_graph_ids (b : List V4.Room) :
    (V4.room_graph b).map Prod.fst = b.map V4.Room.id := by
  simp [V4.room_graph, List.map_map]

theorem pre_inv_append {rs : List V4.Room} {n : Nat} {b : List V4.Room}
    (h : pre_inv (rs, n)) (hb : block_props b n) : pre_inv (rs ++ b, n + b.length) := by
  obtain ⟨hs, hn, hlt⟩ := h
  obtain ⟨hbs, hbn, hbb⟩ := hb
  have hbmem : ∀ r ∈ b, (n ≤ r.id ∧ r.id < n + b.length) ∧
      ∀ c ∈ r.connections, n ≤ c ∧ c < n + b.length := by
    intro r hr
    exact hbb (r.id, r.connections) (List.mem_map_of_mem _ hr)
  have hbsymm : symm_conn b := symm_conn_of_graph hbs
  refine ⟨?_, ?_, ?_⟩
  · intro a ha c hc
    rcases List.mem_append.mp ha with ha1 | ha2 <;> rcases List.mem_append.mp hc with hc1 | hc2
    · exact hs a ha1 c hc1
    · apply iff_of_false
      · intro hmem
        have h1 := ((hbmem c hc2).2) a.id hmem
        have h2 := (hlt a ha1).1
        omega
      · intro hmem
        have h1 := (hlt a ha1).2 c.id hmem
        have h2 := (hbmem c hc2).1.1
        omega
    · apply iff_of_false
      · intro hmem
        have h1 := (hlt c hc1).2 a.id hmem
        have h2 := (hbmem a ha2).1.1
        omega
      · intro hmem
        have h1 := ((hbmem a ha2).2) c.id hmem
        have h2 := (hlt c hc1).1
        omega
    · exact hbsymm a ha2 c hc2
  · rw [List.map_append]
    have hbn2 : (b.map V4.Room.id).Nodup := by
      rwa [room_graph_ids] at hbn
    refine hn.append hbn2 ?_
    intro x hx1 hx2
    rcases List.mem_map.mp hx1 with ⟨r1, hr1, rfl⟩
    rcases List.mem_map.mp hx2 with ⟨r2, hr2, he⟩
    have h1 := (hlt r1 hr1).1
    have h2 := (hbmem r2 hr2).1.1
    omega
  · intro r hr
    rcases List.mem_append.mp hr with h1 | h2
    · obtain ⟨ha, hb2⟩ := hlt r h1
      exact ⟨by omega, fun c hc => by have := hb2 c hc; omega⟩
    · obtain ⟨⟨ha1, ha2⟩, hcs⟩ := hbmem r h2
      exact ⟨by omega, fun c hc => by have := hcs c hc; omega⟩

theorem pre_inv_fold (cfg : V4.Config) (lvls : List Nat) (st : List V4.Room × Nat)
    (h : pre_inv st) : pre_inv (lvls.foldl (fun s l => V4.generate_level cfg l s) st) := by
  induction lvls generalizing st with
  | nil => exact h
  | cons a t ih =>
      exact ih _ (pre_inv_append h (level_block_props cfg a st.2))

theorem pre_rooms_inv (cfg : V4.Config) :
    symm_conn (pre_rooms cfg) ∧ ((pre_rooms cfg).map V4.Room.id).Nodup := by
  have h0 : pre_inv ([], 0) := by
    refine ⟨?_, ?_, ?_⟩
    · intro a ha
      exact absurd ha (List.not_mem_nil a)
    · simp
    · intro r hr
      exact absurd hr (List.not_mem_nil r)
  have h := pre_inv_fold cfg (List.range cfg.num_levels) ([], 0) h0
  exact ⟨h.1, h.2.1⟩

theorem vp_cases (rs : List V4.Room) (i j : Nat) :
    V4.vertical_pair rs i j = rs ∨
    ∃ (hi : i < rs.length) (hj : j < rs.length), i ≠ j ∧
    ∃ room2 other2 : V4.Room,
      room2.id = (rs.get ⟨i, hi⟩).id ∧ other2.id = (rs.get ⟨j, hj⟩).id ∧
      (∀ x, x ∈ room2.connections ↔
        (x ∈ (rs.get ⟨i, hi⟩).connections ∨ x = (rs.get ⟨j, hj⟩).id)) ∧
      (∀ x, x ∈ other2.connections ↔
        (x ∈ (rs.get ⟨j, hj⟩).connections ∨ x = (rs.get ⟨i, hi⟩).id)) ∧
      V4.vertical_pair rs i j = (rs.set i room2).set j other2 := by
  unfold V4.vertical_pair
  cases hri : rs[i]? with
  | none => exact Or.inl rfl
  | some room =>
    cases hrj : rs[j]? with
    | none => exact Or.inl rfl
    | some other =>
      dsimp only
      by_cases hcond : other.level = room.level + 1 ∧
          |room.x - other.x| < 8 ∧ |room.y - other.y| < 8
      · rw [if_pos hcond]
        right
        obtain ⟨hi, hvi⟩ := List.getElem?_eq_some.mp hri
        obtain ⟨hj, hvj⟩ := List.getElem?_eq_some.mp hrj
        have hgi : rs.get ⟨i, hi⟩ = room := by
          rw [List.get_eq_getElem, hvi]
        have hgj : rs.get ⟨j, hj⟩ = other := by
          rw [List.get_eq_getElem, hvj]
        refine ⟨hi, hj, ?_, ?_⟩
        · intro he
          subst he
          have : room = other := by rw [← hvi, hvj]
          subst this
          omega
        · refine ⟨if other.id ∈ room.connections then room
              else { room with connections := room.connections ++ [other.id] },
            if room.id ∈ other.connections then other
              else { other with connections := other.connections ++ [room.id] },
            ?_, ?_, ?_, ?_, rfl⟩
          · split <;> rw [hgi]
          · split <;> rw [hgj]
          · intro x
            rw [hgi, hgj]
            split
            next hin =>
              constructor
              · exact fun hx => Or.inl hx
              · rintro (hx | rfl)
                · exact hx
                · exact hin
            next hin =>
              simp [List.mem_append]
          · intro x
            rw [hgi, hgj]
            split
            next hin =>
              constructor
              · exact fun hx => Or.inl hx
              · rintro (hx | rfl)
                · exact hx
                · exact hin
            next hin =>
              simp [List.mem_append]
      · rw [if_neg hcond]
        exact Or.inl rfl

theorem vp_inv (rs : List V4.Room) (i j : Nat) (h : idx_inv rs) :
    idx_inv (V4.vertical_pair rs i j) := by
  obtain ⟨hd, hs⟩ := h
  rcases vp_cases rs i j with he | ⟨hi, hj, hij, r2, o2, hid2, hod2, hmr, hmo, he⟩
  · rw [he]
    exact ⟨hd, hs⟩
  · rw [he]
    have hget : ∀ k (hk : k < ((rs.set i r2).set j o2).length),
        ((rs.set i r2).set j o2).get ⟨k, hk⟩ =
          if k = j then o2 else if k = i then r2 else rs.get ⟨k, by simpa using hk⟩ := by
      intro k hk
      by_cases hkj : k = j
      · subst hkj
        simp [List.get_eq_getElem, List.getElem_set]
      · by_cases hki : k = i
        · subst hki
          simp [List.get_eq_getElem, List.getElem_set, hkj, Ne.symm hkj]
        · simp [List.get_eq_getElem, List.getElem_set, hkj, hki, Ne.symm hkj, Ne.symm hki]
    have gid : ∀ k (hk : k < ((rs.set i r2).set j o2).length),
        (((rs.set i r2).set j o2).get ⟨k, hk⟩).id = (rs.get ⟨k, by simpa using hk⟩).id := by
      intro k hk
      rw [hget k hk]
      by_cases hkj : k = j
      · subst hkj
        simp [hod2]
      · by_cases hki : k = i
        · subst hki
          simp [hkj, hid2]
        · simp [hkj, hki]
    constructor
    · intro k l hk hl hkl
      rw [gid k hk, gid l hl]
      exact hd k l (by simpa using hk) (by simpa using hl) hkl
    · intro k l hk hl
      have hk2 : k < rs.length := by simpa using hk
      have hl2 : l < rs.length := by simpa using hl
      rw [gid k hk, gid l hl, hget k hk, hget l hl]
      by_cases hkj : k = j
      · rw [if_pos hkj]
        have ek : rs.get ⟨k, hk2⟩ = rs.get ⟨j, hj⟩ := by subst hkj; rfl
        by_cases hlj : l = j
        · rw [if_pos hlj]
          have el : rs.get ⟨l, hl2⟩ = rs.get ⟨j, hj⟩ := by subst hlj; rfl
          rw [ek, el]
        · rw [if_neg hlj]
          by_cases hli : l = i
          · rw [if_pos hli, ek]
            have el : rs.get ⟨l, hl2⟩ = rs.get ⟨i, hi⟩ := by subst hli; rfl
            rw [el]
            exact iff_of_true ((hmr _).mpr (Or.inr rfl)) ((hmo _).mpr (Or.inr rfl))
          · rw [if_neg hli, ek]
            have h2 : (rs.get ⟨l, hl2⟩).id ≠ (rs.get ⟨i, hi⟩).id := hd l i hl2 hi hli
            have h3 := hs j l hj hl2
            constructor
            · intro hx
              exact (hmo _).mpr (Or.inl (h3.mp hx))
            · intro hx
              rcases (hmo _).mp hx with hx2 | hx2
              · exact h3.mpr hx2
              · exact absurd hx2 h2
      · rw [if_neg hkj]
        by_cases hki : k = i
        · rw [if_pos hki]
          have ek : rs.get ⟨k, hk2⟩ = rs.get ⟨i, hi⟩ := by subst hki; rfl
          by_cases hlj : l = j
          · rw [if_pos hlj, ek]
            have el : rs.get ⟨l, hl2⟩ = rs.get ⟨j, hj⟩ := by subst hlj; rfl
            rw [el]
            exact iff_of_true ((hmo _).mpr (Or.inr rfl)) ((hmr _).mpr (Or.inr rfl))
          · rw [if_neg hlj]
            by_cases hli : l = i
            · rw [if_pos hli, ek]
              have el : rs.get ⟨l, hl2⟩ = rs.get ⟨i, hi⟩ := by subst hli; rfl
              rw [el]
            · rw [if_neg hli, ek]
              have h2 : (rs.get ⟨l, hl2⟩).id ≠ (rs.get ⟨j, hj⟩).id := hd l j hl2 hj hlj
              have h3 := hs i l hi hl2
              constructor
              · intro hx
                exact (hmr _).mpr (Or.inl (h3.mp hx))
              · intro hx
                rcases (hmr _).mp hx with hx2 | hx2
                · exact h3.mpr hx2
                · exact absurd hx2 h2
        · rw [if_neg hki]
          by_cases hlj : l = j
          · rw [if_pos hlj]
            have el : rs.get ⟨l, hl2⟩ = rs.get ⟨j, hj⟩ := by subst hlj; rfl
            rw [el]
            have h2 : (rs.get ⟨k, hk2⟩).id ≠ (rs.get ⟨i, hi⟩).id := hd k i hk2 hi hki
            have h3 := hs k j hk2 hj
            constructor
            · intro hx
              rcases (hmo _).mp hx with hx2 | hx2
              · exact h3.mp hx2
              · exact absurd hx2 h2
            · intro hx
              exact (hmo _).mpr (Or.inl (h3.mpr hx))
          · rw [if_neg hlj]
            by_cases hli : l = i
            · rw [if_pos hli]
              have el : rs.get ⟨l, hl2⟩ = rs.get ⟨i, hi⟩ := by subst hli; rfl
              rw [el]
              have h2 : (rs.get ⟨k, hk2⟩).id ≠ (rs.get ⟨j, hj⟩).id := hd k j hk2 hj hkj
              have h3 := hs k i hk2 hi
              constructor
              · intro hx
                rcases (hmr _).mp hx with hx2 | hx2
                · exact h3.mp hx2
                · exact absurd hx2 h2
              · intro hx
                exact (hmr _).mpr (Or.inl (h3.mpr hx))
            · rw [if_neg hli]
              exact hs k l hk2 hl2
theorem vp_foldl_inv (ps : List (Nat × Nat)) (rs : List V4.Room) (h : idx_inv rs) :
    idx_inv (ps.foldl (fun acc p => V4.vertical_pair acc p.1 p.2) rs) := by
  induction ps generalizing rs with
  | nil => exact h
  | cons a t ih => exact ih _ (vp_inv rs a.1 a.2 h)

theorem cvc_inv (rs : List V4.Room) (h : idx_inv rs) :
    idx_inv (V4.create_vertical_connections rs) :=
  vp_foldl_inv _ rs h

theorem idx_inv_of {rs : List V4.Room} (h1 : symm_conn rs)
    (h2 : (rs.map V4.Room.id).Nodup) : idx_inv rs := by
  refine ⟨?_, ?_⟩
  · intro i j hi hj hij heq
    have hi2 : i < (rs.map V4.Room.id).length := by simpa using hi
    have hj2 : j < (rs.map V4.Room.id).length := by simpa using hj
    have hm : (rs.map V4.Room.id).get ⟨i, hi2⟩ = (rs.map V4.Room.id).get ⟨j, hj2⟩ := by
      simp only [List.get_eq_getElem, List.getElem_map]
      exact heq
    have h3 := (List.Nodup.get_inj_iff h2).mp hm
    exact hij (congrArg Fin.val h3)
  · intro i j hi hj
    exact h1 _ (List.get_mem rs i hi) _ (List.get_mem rs j hj)

theorem symm_conn_of_idx {rs : List V4.Room} (h : idx_inv rs) : symm_conn rs := by
  intro a ha b hb
  rcases List.mem_iff_get.mp ha with ⟨⟨i, hi⟩, rfl⟩
  rcases List.mem_iff_get.mp hb with ⟨⟨j, hj⟩, rfl⟩
  exact h.2 i j hi hj

/-- C9: for every configuration and every pair of rooms in the generated
layout, each room's id appears in the other's connection list iff the
converse does: the connection relation is symmetric. -/
theorem C9_connection_symmetry (cfg : V4.Config) (A B : V4.Room)
    (hA : A ∈ V4.generate_layout cfg) (hB : B ∈ V4.generate_layout cfg) :
    A.id ∈ B.connections ↔ B.id ∈ A.connections := by
  have h := pre_rooms_inv cfg
  have h2 : idx_inv (pre_rooms cfg) := idx_inv_of h.1 h.2
  have h3 : idx_inv (V4.generate_layout cfg) := cvc_inv (pre_rooms cfg) h2
  exact symm_conn_of_idx h3 A hA B hB

set_option maxRecDepth 16000 in
theorem C9_connection_symmetry_witness :
    c9_roomA ∈ V4.generate_layout {} ∧ c9_roomB ∈ V4.generate_layout {} ∧
      (c9_roomA.id ∈ c9_roomB.connections ↔ c9_roomB.id ∈ c9_roomA.connections) := by
  have hA : c9_roomA ∈ V4.generate_layout ({} : V4.Config) := by
    rw [layoutD_eq]
    exact of_decide_eq_true (by with_unfolding_all rfl)
  have hB : c9_roomB ∈ V4.generate_layout ({} : V4.Config) := by
    rw [layoutD_eq]
    exact of_decide_eq_true (by with_unfolding_all rfl)
  exact ⟨hA, hB, C9_connection_symmetry {} c9_roomA c9_roomB hA hB⟩
